import Mathlib

/-!
Shallow embedding of the study-sphere request-handling and persistence core:
the data model (shared/schema.ts), the storage-access layer (server/storage.ts)
and the route handlers (the Express routes file). Database tables are lists of
rows; timestamps are integers (epoch milliseconds) and the current time is
passed explicitly as `now`. JavaScript `undefined` versus present-but-`null`
payload fields are modelled with nested `Option`.
-/

namespace StudySphere

/-- A row of the `tasks` table (shared/schema.ts). -/
structure Task where
  id : Int
  userId : String
  title : String
  description : Option String
  subject : Option String
  priority : String
  status : String
  dueDate : Option Int
  estimatedMinutes : Option Int
  completedAt : Option Int
  createdAt : Int
deriving DecidableEq

/-- A row of the `pomodoro_sessions` table. -/
structure PomodoroSession where
  id : Int
  userId : String
  taskId : Option Int
  duration : Int
  breakDuration : Int
  completed : Bool
  startedAt : Int
  endedAt : Option Int
deriving DecidableEq

/-- A row of the `study_recommendations` table. `type` and `priority` are
plain `text` columns in the schema (no database-level enum constraint). -/
structure StudyRecommendation where
  id : Int
  userId : String
  title : String
  description : String
  subject : Option String
  type : String
  priority : String
  dismissed : Bool
  createdAt : Int
deriving DecidableEq

/-- A row of the `file_uploads` table. -/
structure FileUpload where
  id : Int
  userId : String
  filename : String
  originalName : String
  mimeType : String
  size : Int
  taskId : Option Int
  createdAt : Int
deriving DecidableEq

/-- A row of the `notifications` table. -/
structure Notification where
  id : Int
  userId : String
  title : String
  message : String
  type : String
  read : Bool
  createdAt : Int
deriving DecidableEq

/-- A row of the `user_profiles` table. -/
structure UserProfile where
  id : Int
  userId : String
  role : String
  studyGoal : Option String
  preferredSubjects : Option String
  dailyStudyTarget : Option Int
deriving DecidableEq

/-- The persistent state: the six tables, each with its serial id counter,
plus the contents of the `uploads/` directory (`uploadsDisk`, file names). -/
structure DB where
  tasks : List Task
  pomodoroSessions : List PomodoroSession
  studyRecommendations : List StudyRecommendation
  fileUploads : List FileUpload
  notifications : List Notification
  userProfiles : List UserProfile
  uploadsDisk : List String
  nextTaskId : Int
  nextSessionId : Int
  nextRecId : Int
  nextFileId : Int
  nextNotifId : Int
  nextProfileId : Int
deriving DecidableEq

/-- The empty database with serial counters at 1. -/
def DB.empty : DB :=
  { tasks := [], pomodoroSessions := [], studyRecommendations := [],
    fileUploads := [], notifications := [], userProfiles := [],
    uploadsDisk := [], nextTaskId := 1, nextSessionId := 1, nextRecId := 1,
    nextFileId := 1, nextNotifId := 1, nextProfileId := 1 }

/-! ## Insert payloads (drizzle-zod insert schemas, shared/schema.ts)

`insertTaskSchema` omits `id`, `createdAt` and `completedAt`;
`insertPomodoroSchema` omits `id`, `startedAt` and `endedAt`. -/

structure InsertTask where
  userId : String
  title : String
  description : Option String
  subject : Option String
  priority : String
  status : String
  dueDate : Option Int
  estimatedMinutes : Option Int
deriving DecidableEq

structure InsertPomodoro where
  userId : String
  taskId : Option Int
  duration : Int
  breakDuration : Int
  completed : Bool
deriving DecidableEq

structure InsertRecommendation where
  userId : String
  title : String
  description : String
  subject : Option String
  type : String
  priority : String
  dismissed : Bool
deriving DecidableEq

structure InsertFileUpload where
  userId : String
  filename : String
  originalName : String
  mimeType : String
  size : Int
  taskId : Option Int
deriving DecidableEq

/-- `insertUserProfileSchema` payload; optional fields absent means the
column default applies (`role` defaults to student, `dailyStudyTarget` to
120, the text fields to null). -/
structure InsertUserProfile where
  userId : String
  role : String
  studyGoal : Option String := none
  preferredSubjects : Option String := none
  dailyStudyTarget : Option Int := none
deriving DecidableEq

/-! ## Storage-access layer (server/storage.ts, class DatabaseStorage)

Each method becomes a pure function on `DB`. Read methods that order by
`createdAt` descending are modelled as plain filters: no claim in this
development depends on result order, and ids are compared exactly as the
SQL `where` clauses do. -/

def getProfile (db : DB) (userId : String) : Option UserProfile :=
  db.userProfiles.find? (fun p => p.userId == userId)

def upsertProfile (db : DB) (data : InsertUserProfile) : UserProfile × DB :=
  match getProfile db data.userId with
  | some _ =>
      -- onConflictDoUpdate: set {...data}; absent optional fields are skipped
      let updated := db.userProfiles.map (fun p =>
        if p.userId == data.userId then
          { p with role := data.role,
                   studyGoal := data.studyGoal.map some |>.getD p.studyGoal,
                   preferredSubjects := data.preferredSubjects.map some |>.getD p.preferredSubjects,
                   dailyStudyTarget := data.dailyStudyTarget.map some |>.getD p.dailyStudyTarget }
        else p)
      let db' := { db with userProfiles := updated }
      ((getProfile db' data.userId).getD
        { id := 0, userId := data.userId, role := data.role, studyGoal := none,
          preferredSubjects := none, dailyStudyTarget := none }, db')
  | none =>
      let p : UserProfile :=
        { id := db.nextProfileId, userId := data.userId, role := data.role,
          studyGoal := data.studyGoal, preferredSubjects := data.preferredSubjects,
          dailyStudyTarget := some (data.dailyStudyTarget.getD 120) }
      (p, { db with userProfiles := db.userProfiles ++ [p],
                    nextProfileId := db.nextProfileId + 1 })

def updateProfileRole (db : DB) (userId : String) (role : String) :
    Option UserProfile × DB :=
  let updated := db.userProfiles.map (fun p =>
    if p.userId == userId then { p with role := role } else p)
  let db' := { db with userProfiles := updated }
  (getProfile db' userId, db')

def getTasks (db : DB) (userId : String) : List Task :=
  db.tasks.filter (fun t => t.userId == userId)

def getAllTasks (db : DB) : List Task :=
  db.tasks

def getTask (db : DB) (id : Int) : Option Task :=
  db.tasks.find? (fun t => t.id == id)

def createTask (db : DB) (now : Int) (data : InsertTask) : Task × DB :=
  -- insert values(data): completedAt is not in the insert schema, so the
  -- column takes its default (null); createdAt takes defaultNow()
  let task : Task :=
    { id := db.nextTaskId, userId := data.userId, title := data.title,
      description := data.description, subject := data.subject,
      priority := data.priority, status := data.status,
      dueDate := data.dueDate, estimatedMinutes := data.estimatedMinutes,
      completedAt := none, createdAt := now }
  (task, { db with tasks := db.tasks ++ [task], nextTaskId := db.nextTaskId + 1 })

/-- `Partial<InsertTask>`: each updatable column either absent (outer `none`,
the JS `undefined`: column untouched) or present with a value, where the
inner `Option` is SQL null for nullable columns. -/
structure TaskPatch where
  title : Option String := none
  description : Option (Option String) := none
  subject : Option (Option String) := none
  priority : Option String := none
  status : Option String := none
  dueDate : Option (Option Int) := none
  estimatedMinutes : Option (Option Int) := none
deriving DecidableEq

def applyTaskPatch (t : Task) (p : TaskPatch) (completedAtPatch : Option (Option Int)) : Task :=
  { t with
    title := p.title.getD t.title,
    description := p.description.getD t.description,
    subject := p.subject.getD t.subject,
    priority := p.priority.getD t.priority,
    status := p.status.getD t.status,
    dueDate := p.dueDate.getD t.dueDate,
    estimatedMinutes := p.estimatedMinutes.getD t.estimatedMinutes,
    completedAt := completedAtPatch.getD t.completedAt }

def updateTask (db : DB) (now : Int) (id : Int) (data : TaskPatch) :
    Option Task × DB :=
  -- updateData = {...data}; if (data.status === "completed")
  --   updateData.completedAt = new Date()
  let completedAtPatch : Option (Option Int) :=
    if data.status == some "completed" then some (some now) else none
  let newTasks := db.tasks.map (fun t =>
    if t.id == id then applyTaskPatch t data completedAtPatch else t)
  let db' := { db with tasks := newTasks }
  (getTask db' id, db')

def deleteTask (db : DB) (id : Int) : DB :=
  { db with tasks := db.tasks.filter (fun t => !(t.id == id)) }

def getPomodoroSessions (db : DB) (userId : String) : List PomodoroSession :=
  db.pomodoroSessions.filter (fun s => s.userId == userId)

def getAllPomodoroSessions (db : DB) : List PomodoroSession :=
  db.pomodoroSessions

def createPomodoroSession (db : DB) (now : Int) (data : InsertPomodoro) :
    PomodoroSession × DB :=
  -- values({...data, endedAt: data.completed ? new Date() : null})
  let session : PomodoroSession :=
    { id := db.nextSessionId, userId := data.userId, taskId := data.taskId,
      duration := data.duration, breakDuration := data.breakDuration,
      completed := data.completed, startedAt := now,
      endedAt := if data.completed then some now else none }
  (session, { db with pomodoroSessions := db.pomodoroSessions ++ [session],
                      nextSessionId := db.nextSessionId + 1 })

def getRecommendations (db : DB) (userId : String) : List StudyRecommendation :=
  db.studyRecommendations.filter (fun r => r.userId == userId)

def createRecommendation (db : DB) (now : Int) (data : InsertRecommendation) :
    StudyRecommendation × DB :=
  let rec' : StudyRecommendation :=
    { id := db.nextRecId, userId := data.userId, title := data.title,
      description := data.description, subject := data.subject,
      type := data.type, priority := data.priority,
      dismissed := data.dismissed, createdAt := now }
  (rec', { db with studyRecommendations := db.studyRecommendations ++ [rec'],
                   nextRecId := db.nextRecId + 1 })

def dismissRecommendation (db : DB) (id : Int) : DB :=
  { db with studyRecommendations := db.studyRecommendations.map (fun r =>
      if r.id == id then { r with dismissed := true } else r) }

def getFiles (db : DB) (userId : String) : List FileUpload :=
  db.fileUploads.filter (fun f => f.userId == userId)

def getFile (db : DB) (id : Int) : Option FileUpload :=
  db.fileUploads.find? (fun f => f.id == id)

def createFile (db : DB) (now : Int) (data : InsertFileUpload) :
    FileUpload × DB :=
  let file : FileUpload :=
    { id := db.nextFileId, userId := data.userId, filename := data.filename,
      originalName := data.originalName, mimeType := data.mimeType,
      size := data.size, taskId := data.taskId, createdAt := now }
  (file, { db with fileUploads := db.fileUploads ++ [file],
                   nextFileId := db.nextFileId + 1 })

def deleteFile (db : DB) (id : Int) : DB :=
  { db with fileUploads := db.fileUploads.filter (fun f => !(f.id == id)) }

def getNotifications (db : DB) (userId : String) : List Notification :=
  db.notifications.filter (fun n => n.userId == userId)

def markNotificationRead (db : DB) (id : Int) : DB :=
  { db with notifications := db.notifications.map (fun n =>
      if n.id == id then { n with read := true } else n) }

def markAllNotificationsRead (db : DB) (userId : String) : DB :=
  { db with notifications := db.notifications.map (fun n =>
      if n.userId == userId then { n with read := true } else n) }

/-! ## JSON values and `JSON.parse`

The recommendation handler parses the AI model's text with the JavaScript
`JSON.parse`, modelled here by a recursive-descent parser over the exact
JSON grammar (including fractional and exponent number forms, rejection of
leading zeros and trailing dots, the fixed escape set with `\uXXXX`, and
rejection of unescaped control characters and unknown escapes), so that the
modelled parser succeeds exactly when `JSON.parse` does. Number values are
exact rationals: IEEE-754 double rounding (observable only beyond 15
significant digits) and the exponent-notation thresholds of JavaScript
number-to-string conversion are not modelled; a `\uXXXX` escape denoting a
lone surrogate code unit maps through `Char.ofNat` rather than pairing, which
affects the decoded characters but never parse success. -/

inductive Json where
  | null
  | bool (b : Bool)
  | num (q : Rat)
  | str (s : String)
  | arr (elems : List Json)
  | obj (fields : List (String × Json))

def skipWs : List Char → List Char
  | c :: rest =>
      if c = ' ' ∨ c = '\t' ∨ c = '\n' ∨ c = '\r' then skipWs rest else c :: rest
  | [] => []

def hexVal (c : Char) : Option Nat :=
  if c.isDigit then some (c.toNat - '0'.toNat)
  else if 'a' ≤ c ∧ c ≤ 'f' then some (c.toNat - 'a'.toNat + 10)
  else if 'A' ≤ c ∧ c ≤ 'F' then some (c.toNat - 'A'.toNat + 10)
  else none

/-- Parse the body of a string literal, after the opening quote. Only the
JSON escapes are accepted (any other backslash escape is a syntax error, as
in `JSON.parse`), and an unescaped control character is rejected. -/
def parseStringBody : List Char → Option (String × List Char)
  | [] => none
  | c :: rest =>
      if c = '"' then some ("", rest)
      else if c = '\\' then
        match rest with
        | [] => none
        | e :: rest2 =>
            let echar : Option Char :=
              if e = '"' then some '"'
              else if e = '\\' then some '\\'
              else if e = '/' then some '/'
              else if e = 'b' then some (Char.ofNat 8)
              else if e = 'f' then some (Char.ofNat 12)
              else if e = 'n' then some '\n'
              else if e = 'r' then some '\r'
              else if e = 't' then some '\t'
              else none
            match echar with
            | some ch =>
                (parseStringBody rest2).map (fun p => (String.mk (ch :: p.1.data), p.2))
            | none =>
                if e = 'u' then
                  match rest2 with
                  | h1 :: h2 :: h3 :: h4 :: rest3 =>
                      (match hexVal h1, hexVal h2, hexVal h3, hexVal h4 with
                       | some a, some b, some c2, some d =>
                           let code := ((a * 16 + b) * 16 + c2) * 16 + d
                           (parseStringBody rest3).map
                             (fun p => (String.mk (Char.ofNat code :: p.1.data), p.2))
                       | _, _, _, _ => none)
                  | _ => none
                else none
      else if c.toNat < 32 then none
      else (parseStringBody rest).map (fun p => (String.mk (c :: p.1.data), p.2))

def digitsToNat : List Char → Nat → Nat
  | [], acc => acc
  | c :: rest, acc => digitsToNat rest (acc * 10 + (c.toNat - '0'.toNat))

/-- The exponent part of a number literal, after the `e`/`E`. -/
def parseExpPart (cs : List Char) : Option (Int × List Char) :=
  let signed : Bool × List Char :=
    match cs with
    | '+' :: rest => (false, rest)
    | '-' :: rest => (true, rest)
    | _ => (false, cs)
  let p := signed.2.span Char.isDigit
  if p.1.isEmpty then none
  else some ((if signed.1 then -(digitsToNat p.1 0 : Int) else (digitsToNat p.1 0 : Int)), p.2)

/-- Parse a number literal, per the JSON grammar
`-? (0 | [1-9][0-9]*) (\.[0-9]+)? ([eE][+-]?[0-9]+)?`: leading zeros, a dot
without following digits and a bare exponent marker are rejected, exactly as
`JSON.parse` rejects them. The value is the exact rational the literal
denotes. -/
def parseNum (cs : List Char) : Option (Rat × List Char) :=
  let signed : Bool × List Char :=
    match cs with
    | '-' :: rest => (true, rest)
    | _ => (false, cs)
  let ip := signed.2.span Char.isDigit
  if ip.1.isEmpty then none
  else if 1 < ip.1.length ∧ ip.1.head? = some '0' then none
  else
    let intVal : Int := (digitsToNat ip.1 0 : Int)
    let fracStep : Option (List Char × List Char) :=
      match ip.2 with
      | '.' :: rest =>
          let fp := rest.span Char.isDigit
          if fp.1.isEmpty then none else some (fp.1, fp.2)
      | _ => some ([], ip.2)
    match fracStep with
    | none => none
    | some (fracDigits, afterFrac) =>
        let expStep : Option (Int × List Char) :=
          match afterFrac with
          | 'e' :: rest => parseExpPart rest
          | 'E' :: rest => parseExpPart rest
          | _ => some (0, afterFrac)
        match expStep with
        | none => none
        | some (expVal, rest) =>
            let mantissa : Int := intVal * 10 ^ fracDigits.length + (digitsToNat fracDigits 0 : Int)
            let e : Int := expVal - (fracDigits.length : Int)
            let q : Rat :=
              if 0 ≤ e then ((mantissa * 10 ^ e.toNat : Int) : Rat)
              else (mantissa : Rat) / ((10 ^ (-e).toNat : Int) : Rat)
            some (if signed.1 then -q else q, rest)

mutual

/-- Parse one JSON value; fuel bounds recursion depth. -/
def parseVal : Nat → List Char → Option (Json × List Char)
  | 0, _ => none
  | fuel + 1, cs =>
      match skipWs cs with
      | 'n' :: 'u' :: 'l' :: 'l' :: rest => some (Json.null, rest)
      | 't' :: 'r' :: 'u' :: 'e' :: rest => some (Json.bool true, rest)
      | 'f' :: 'a' :: 'l' :: 's' :: 'e' :: rest => some (Json.bool false, rest)
      | '"' :: rest => (parseStringBody rest).map (fun p => (Json.str p.1, p.2))
      | '[' :: rest =>
          (match skipWs rest with
           | ']' :: rest2 => some (Json.arr [], rest2)
           | cs2 => (parseElems fuel cs2).map (fun p => (Json.arr p.1, p.2)))
      | '{' :: rest =>
          (match skipWs rest with
           | '}' :: rest2 => some (Json.obj [], rest2)
           | cs2 => (parseFields fuel cs2).map (fun p => (Json.obj p.1, p.2)))
      | cs' => (parseNum cs').map (fun p => (Json.num p.1, p.2))

/-- Parse a non-empty comma-separated element list, then the closing bracket. -/
def parseElems : Nat → List Char → Option (List Json × List Char)
  | 0, _ => none
  | fuel + 1, cs =>
      match parseVal fuel cs with
      | none => none
      | some (v, rest) =>
          match skipWs rest with
          | ',' :: rest2 =>
              (parseElems fuel rest2).map (fun p => (v :: p.1, p.2))
          | ']' :: rest2 => some ([v], rest2)
          | _ => none

/-- Parse a non-empty comma-separated field list, then the closing brace. -/
def parseFields : Nat → List Char → Option (List (String × Json) × List Char)
  | 0, _ => none
  | fuel + 1, cs =>
      match skipWs cs with
      | '"' :: rest =>
          (match parseStringBody rest with
           | none => none
           | some (key, rest2) =>
               match skipWs rest2 with
               | ':' :: rest3 =>
                   (match parseVal fuel rest3 with
                    | none => none
                    | some (v, rest4) =>
                        match skipWs rest4 with
                        | ',' :: rest5 =>
                            (parseFields fuel rest5).map
                              (fun p => ((key, v) :: p.1, p.2))
                        | '}' :: rest5 => some ([(key, v)], rest5)
                        | _ => none)
               | _ => none)
      | _ => none

end

/-- `JSON.parse`: one JSON value followed only by whitespace; throws
(here: `none`) otherwise. -/
def jsonParse (s : String) : Option Json :=
  match parseVal (2 * s.data.length + 2) s.data with
  | some (v, rest) => if (skipWs rest).isEmpty then some v else none
  | none => none

/-- The fallback pattern match `content.match(/\[[\s\S]*\]/)`: greedy, so the
match runs from the first opening bracket to the last closing bracket, and
exists exactly when some closing bracket follows the first opening one. -/
def bracketMatch (s : String) : Option String :=
  let cs := s.data
  match cs.findIdx? (fun c => c = '['), (cs.reverse).findIdx? (fun c => c = ']') with
  | some i, some k =>
      let j := cs.length - 1 - k
      if i < j then some (String.mk ((cs.drop i).take (j - i + 1))) else none
  | _, _ => none

/-- JavaScript truthiness of a JSON value (`-0`, parsed as the rational 0,
is falsy like in JavaScript). -/
def jsTruthy : Json → Bool
  | Json.null => false
  | Json.bool b => b
  | Json.num q => !(q == 0)
  | Json.str s => !s.isEmpty
  | Json.arr _ => true
  | Json.obj _ => true

/-- `a || b`. -/
def jsOr (a b : Json) : Json := if jsTruthy a then a else b

/-- Property access `j.key` on a non-null receiver, yielding `undefined`
(modelled as `null`, likewise falsy) when the key is missing or the receiver
is a primitive; with duplicate keys `JSON.parse` keeps the last, so lookup
takes the last occurrence. A null receiver throws a TypeError in JavaScript
— that error path is modelled in `coerceRec`, so this function is never
applied to a null receiver by the handlers (its null case is dead code kept
for totality). -/
def jsMember (j : Json) (key : String) : Json :=
  match j with
  | Json.obj fields =>
      match (fields.reverse).find? (fun kv => kv.1 == key) with
      | some kv => kv.2
      | none => Json.null
  | _ => Json.null

/-- How many times `p` divides `n` (fuel-bounded by `n` itself). -/
def countFactor (p : Nat) : Nat → Nat → Nat
  | 0, _ => 0
  | fuel + 1, n => if n % p = 0 ∧ 0 < n then countFactor p fuel (n / p) + 1 else 0

/-- JavaScript number-to-string conversion for an exact rational: integers
print as integers, finite decimals print in plain decimal notation. The
exponent-notation thresholds (at 1e21 and 1e-7) of JavaScript are not
modelled, and a denominator that is not of the form 2^a·5^b cannot arise
from a parsed JSON literal (that branch prints the raw rational). -/
def ratToJsString (q : Rat) : String :=
  if q.den = 1 then toString q.num
  else
    let den := q.den
    let a := countFactor 2 den den
    let b := countFactor 5 den den
    if den ≠ 2 ^ a * 5 ^ b then toString q
    else
      let k := max a b
      let scaled := q.num.natAbs * 10 ^ k / den
      let s0 := toString scaled
      let s1 := if s0.length ≤ k then
          String.mk (List.replicate (k + 1 - s0.length) '0') ++ s0
        else s0
      let intPart := String.mk (s1.data.take (s1.length - k))
      let fracPart := String.mk (s1.data.drop (s1.length - k))
      (if q.num < 0 then "-" else "") ++
        (if intPart.isEmpty then "0" else intPart) ++ "." ++ fracPart

mutual

/-- JavaScript `String(v)` for a JSON value. -/
def jsToString : Json → String
  | Json.null => "null"
  | Json.bool b => if b then "true" else "false"
  | Json.num q => ratToJsString q
  | Json.str s => s
  | Json.arr l => String.intercalate "," (jsToStringList l)
  | Json.obj _ => "[object Object]"

/-- Array elements joined by `Array.prototype.toString`: null becomes the
empty string. -/
def jsToStringList : List Json → List String
  | [] => []
  | Json.null :: rest => "" :: jsToStringList rest
  | j :: rest => jsToString j :: jsToStringList rest

end

/-- `s.substring(0, n)`. -/
def substringTo (s : String) (n : Nat) : String := String.mk (s.data.take n)

/-! ## Route handlers (the Express routes file)

Each handler becomes a function from the current state, the current time and
the already-authenticated caller id to a `HandlerResult`. Request bodies are
passed as the outcome of the zod `safeParse` (`none` models validation
failure); `:id` path parameters are passed as the outcome of
`parseInt` (`none` models NaN). -/

structure HandlerResult (α : Type) where
  status : Nat
  body : Option α
  db : DB

/-- `x || null` for an optional-nullable string payload field: present,
non-null and non-empty keeps the value, anything falsy becomes null. -/
def jsOrNullStr (x : Option (Option String)) : Option String :=
  match x with
  | some (some s) => if s.isEmpty then none else some s
  | _ => none

/-- `x || null` for an optional-nullable integer payload field. -/
def jsOrNullInt (x : Option (Option Int)) : Option Int :=
  match x with
  | some (some n) => if n == 0 then none else some n
  | _ => none

/-- `x || d` for an optional string payload field. -/
def jsOrDefault (x : Option String) (d : String) : String :=
  match x with
  | some s => if s.isEmpty then d else s
  | none => d

/-- The parsed output of `taskCreateSchema.safeParse`. `dueDate` is the
payload's date string modelled after `new Date` conversion, with `some none`
covering a present null or empty string. `userId` records a userId property
of the raw request body: it is not a key of the zod schema, so parsing
strips it and the handler never reads it. -/
structure TaskCreatePayload where
  title : String
  description : Option (Option String) := none
  subject : Option (Option String) := none
  priority : Option String := none
  status : Option String := none
  dueDate : Option (Option Int) := none
  estimatedMinutes : Option (Option Int) := none
  userId : Option String := none
deriving DecidableEq

/-- POST /api/tasks. -/
def postTasksHandler (db : DB) (now : Int) (userId : String)
    (payload : Option TaskCreatePayload) : HandlerResult Task :=
  match payload with
  | none => ⟨400, none, db⟩
  | some data =>
      let r := createTask db now
        { userId := userId,
          title := data.title,
          description := jsOrNullStr data.description,
          subject := jsOrNullStr data.subject,
          priority := jsOrDefault data.priority "medium",
          status := jsOrDefault data.status "pending",
          dueDate := data.dueDate.join,
          estimatedMinutes := jsOrNullInt data.estimatedMinutes }
      ⟨201, some r.1, r.2⟩

/-- PATCH /api/tasks/:id. The body is the parsed `taskUpdateSchema` patch
(`taskCreateSchema.partial()`), with the handler's dueDate conversion folded
into the `TaskPatch` representation. -/
def patchTaskHandler (db : DB) (now : Int) (userId : String)
    (idParam : Option Int) (body : Option TaskPatch) : HandlerResult Task :=
  match idParam with
  | none => ⟨400, none, db⟩
  | some id =>
      match getTask db id with
      | none => ⟨404, none, db⟩
      | some existing =>
          if existing.userId != userId then ⟨403, none, db⟩
          else
            match body with
            | none => ⟨400, none, db⟩
            | some data =>
                let r := updateTask db now id data
                ⟨200, r.1, r.2⟩

/-- DELETE /api/tasks/:id. -/
def deleteTaskHandler (db : DB) (userId : String) (idParam : Option Int) :
    HandlerResult Unit :=
  match idParam with
  | none => ⟨400, none, db⟩
  | some id =>
      match getTask db id with
      | none => ⟨404, none, db⟩
      | some existing =>
          if existing.userId != userId then ⟨403, none, db⟩
          else ⟨204, none, deleteTask db id⟩

/-- The parsed output of `pomodoroCreateSchema.safeParse`; `taskId` is
optional-nullable. -/
structure PomodoroCreateData where
  taskId : Option (Option Int) := none
  duration : Int
  breakDuration : Int
  completed : Bool
deriving DecidableEq

/-- POST /api/pomodoro. The ownership check runs under
`if (parsed.data.taskId)`, so an absent, null or zero taskId skips it. -/
def postPomodoroHandler (db : DB) (now : Int) (userId : String)
    (body : Option PomodoroCreateData) : HandlerResult PomodoroSession :=
  match body with
  | none => ⟨400, none, db⟩
  | some data =>
      let checkFailed : Bool :=
        match data.taskId with
        | some (some t) =>
            if t == 0 then false
            else
              match getTask db t with
              | none => true
              | some task => task.userId != userId
        | _ => false
      if checkFailed then ⟨403, none, db⟩
      else
        let r := createPomodoroSession db now
          { userId := userId, taskId := data.taskId.join,
            duration := data.duration, breakDuration := data.breakDuration,
            completed := data.completed }
        ⟨201, some r.1, r.2⟩

/-- The field values the loop body reads off one candidate, exactly as the
source coerces them (`String(rec.title || "Study Tip").substring(0, 60)` and
so on); only evaluated on a non-null candidate. -/
def coerceFields (userId : String) (cand : Json) : InsertRecommendation :=
  { userId := userId,
    title := substringTo (jsToString (jsOr (jsMember cand "title") (Json.str "Study Tip"))) 60,
    description := substringTo (jsToString (jsOr (jsMember cand "description") (Json.str "Keep up the great work!"))) 200,
    subject := if jsTruthy (jsMember cand "subject") then some (jsToString (jsMember cand "subject")) else none,
    type := if jsTruthy (jsMember cand "type") then jsToString (jsMember cand "type") else "study_tip",
    priority := if jsTruthy (jsMember cand "priority") then jsToString (jsMember cand "priority") else "medium",
    dismissed := false }

/-- Defensive coercion of one candidate from the model's output (the body of
the for-loop in the generate handler). The property accesses `rec.title`
etc. throw a TypeError when the candidate is null, reaching the handler's
outer catch; on every other value they yield the field or `undefined`. -/
def coerceRec (userId : String) (cand : Json) : Except Unit InsertRecommendation :=
  match cand with
  | Json.null => Except.error ()
  | _ => Except.ok (coerceFields userId cand)

/-- The generate handler's for-loop: persist the candidates in order,
accumulating the created rows. A candidate whose coercion throws aborts the
loop, keeping the rows already inserted (each insert is awaited before the
next candidate is touched). -/
def insertRecs (now : Int) (userId : String) :
    DB → List Json → Except Unit (List StudyRecommendation) × DB
  | db, [] => (Except.ok [], db)
  | db, cand :: rest =>
      match coerceRec userId cand with
      | Except.error e => (Except.error e, db)
      | Except.ok data =>
          let r := createRecommendation db now data
          match insertRecs now userId r.2 rest with
          | (Except.ok others, db2) => (Except.ok (r.1 :: others), db2)
          | (Except.error e, db2) => (Except.error e, db2)

/-- The two-stage response parse: direct `JSON.parse`; on failure, the
bracket-extraction fallback, whose own `JSON.parse` call is not guarded by
any local try/catch and therefore throws (`Except.error`, caught only by the
handler's outer catch) when the extracted substring is unparsable. -/
def parseModelContent (content : String) : Except Unit Json :=
  match jsonParse content with
  | some v => Except.ok v
  | none =>
      match bracketMatch content with
      | none => Except.ok (Json.arr [])
      | some m =>
          match jsonParse m with
          | some v => Except.ok v
          | none => Except.error ()

/-- The tail of the generate handler, from the parse outcome on: a thrown
error (unparsable extracted substring, or a null candidate during the loop)
reaches the outer catch as 500, keeping any rows already inserted; an array
is capped at four candidates and persisted; a top-level string also has
`.slice(0, 4)` and `for..of` then iterates its characters, persisting one
fully defaulted row per character; `.slice` on any other parse result (null,
number, boolean, object) throws a TypeError, reaching the outer catch as a
500. -/
def persistParsed (db : DB) (now : Int) (userId : String) :
    Except Unit Json → HandlerResult (List StudyRecommendation)
  | Except.error _ => ⟨500, none, db⟩
  | Except.ok (Json.arr l) =>
      (match insertRecs now userId db (l.take 4) with
       | (Except.ok created, db2) => ⟨200, some created, db2⟩
       | (Except.error _, db2) => ⟨500, none, db2⟩)
  | Except.ok (Json.str s) =>
      (match insertRecs now userId db
          ((s.data.take 4).map (fun c => Json.str (String.mk [c]))) with
       | (Except.ok created, db2) => ⟨200, some created, db2⟩
       | (Except.error _, db2) => ⟨500, none, db2⟩)
  | Except.ok _ => ⟨500, none, db⟩

/-- POST /api/recommendations/generate. `apiKeyConfigured` models the
presence of the `AI_INTEGRATIONS_OPENAI_API_KEY` credential; `providerResult`
is `none` when the provider call throws, otherwise the possibly-null message
content (`content || "[]"` replaces a null or empty content). -/
def generateRecommendationsHandler (db : DB) (now : Int) (userId : String)
    (apiKeyConfigured : Bool) (providerResult : Option (Option String)) :
    HandlerResult (List StudyRecommendation) :=
  if !apiKeyConfigured then ⟨503, none, db⟩
  else
    match providerResult with
    | none => ⟨500, none, db⟩
    | some contentOpt =>
        let content :=
          match contentOpt with
          | some s => if s.isEmpty then "[]" else s
          | none => "[]"
        persistParsed db now userId (parseModelContent content)

/-- PATCH /api/recommendations/:id/dismiss: ownership via searching the
caller's own list, so a foreign recommendation is indistinguishable from an
absent one (404). -/
def dismissRecommendationHandler (db : DB) (userId : String)
    (idParam : Option Int) : HandlerResult Bool :=
  match idParam with
  | none => ⟨400, none, db⟩
  | some id =>
      match (getRecommendations db userId).find? (fun r => r.id == id) with
      | none => ⟨404, none, db⟩
      | some _ => ⟨200, some true, dismissRecommendation db id⟩

/-- Multer's `req.file` for a single accepted upload. -/
structure UploadedFile where
  filename : String
  originalname : String
  mimetype : String
  size : Int
deriving DecidableEq

/-- POST /api/files/upload. The multer middleware has already written the
file to the uploads directory when the handler body runs. `taskIdField`
models `req.body.taskId`: outer `none` when the field is absent or falsy,
inner `none` when `parseInt` yields NaN. -/
def uploadFileHandler (db : DB) (now : Int) (userId : String)
    (file : Option UploadedFile) (taskIdField : Option (Option Int)) :
    HandlerResult FileUpload :=
  match file with
  | none => ⟨400, none, db⟩
  | some f =>
      let db0 := { db with uploadsDisk := db.uploadsDisk ++ [f.filename] }
      match taskIdField with
      | some none => ⟨400, none, db0⟩
      | some (some t) =>
          (match getTask db0 t with
           | none => ⟨403, none, db0⟩
           | some task =>
               if task.userId != userId then ⟨403, none, db0⟩
               else
                 let r := createFile db0 now
                   { userId := userId, filename := f.filename,
                     originalName := f.originalname, mimeType := f.mimetype,
                     size := f.size, taskId := some t }
                 ⟨201, some r.1, r.2⟩)
      | none =>
          let r := createFile db0 now
            { userId := userId, filename := f.filename,
              originalName := f.originalname, mimeType := f.mimetype,
              size := f.size, taskId := none }
          ⟨201, some r.1, r.2⟩

/-- GET /api/files/:id/download: after the ownership check, a metadata row
whose backing file is gone from disk is reported as 404. -/
def downloadFileHandler (db : DB) (userId : String) (idParam : Option Int) :
    HandlerResult FileUpload :=
  match idParam with
  | none => ⟨400, none, db⟩
  | some id =>
      match getFile db id with
      | none => ⟨404, none, db⟩
      | some f =>
          if f.userId != userId then ⟨403, none, db⟩
          else if !(db.uploadsDisk.contains f.filename) then ⟨404, none, db⟩
          else ⟨200, some f, db⟩

/-- DELETE /api/files/:id: unlink the physical file if present (tolerating
absence), then delete the metadata row. -/
def deleteFileHandler (db : DB) (userId : String) (idParam : Option Int) :
    HandlerResult Unit :=
  match idParam with
  | none => ⟨400, none, db⟩
  | some id =>
      match getFile db id with
      | none => ⟨404, none, db⟩
      | some f =>
          if f.userId != userId then ⟨403, none, db⟩
          else
            let db1 := { db with uploadsDisk := db.uploadsDisk.erase f.filename }
            ⟨204, none, deleteFile db1 id⟩

/-- PATCH /api/notifications/:id/read: ownership via searching the caller's
own list. -/
def markNotificationReadHandler (db : DB) (userId : String)
    (idParam : Option Int) : HandlerResult Bool :=
  match idParam with
  | none => ⟨400, none, db⟩
  | some id =>
      match (getNotifications db userId).find? (fun n => n.id == id) with
      | none => ⟨404, none, db⟩
      | some _ => ⟨200, some true, markNotificationRead db id⟩

/-- PATCH /api/notifications/read-all. -/
def markAllNotificationsReadHandler (db : DB) (userId : String) :
    HandlerResult Bool :=
  ⟨200, some true, markAllNotificationsRead db userId⟩

/-- GET /api/profile: lazily creates the student profile on first access. -/
def getProfileHandler (db : DB) (userId : String) : HandlerResult UserProfile :=
  match getProfile db userId with
  | some p => ⟨200, some p, db⟩
  | none =>
      let r := upsertProfile db { userId := userId, role := "student" }
      ⟨200, some r.1, r.2⟩

/-- PATCH /api/admin/users/:userId/role. `body` is the parsed
`roleUpdateSchema` role. An absent requester profile is non-admin. -/
def adminUpdateRoleHandler (db : DB) (adminId : String) (targetUserId : String)
    (body : Option String) : HandlerResult UserProfile :=
  let isAdmin : Bool :=
    match getProfile db adminId with
    | some p => p.role == "admin"
    | none => false
  if !isAdmin then ⟨403, none, db⟩
  else
    match body with
    | none => ⟨400, none, db⟩
    | some role =>
        match getProfile db targetUserId with
        | none =>
            let r := upsertProfile db { userId := targetUserId, role := role }
            ⟨200, some r.1, r.2⟩
        | some _ =>
            let r := updateProfileRole db targetUserId role
            ⟨200, r.1, r.2⟩

/-! ## The exposed endpoint surface as a step relation

One constructor per route. GET endpoints that only read (task, pomodoro,
recommendation, file and notification lists, the admin stats and user list)
perform no storage write, so their state effect is the identity. -/

inductive Op where
  | getProfileOp (userId : String)
  | listTasksOp (userId : String)
  | createTaskOp (now : Int) (userId : String) (payload : Option TaskCreatePayload)
  | updateTaskOp (now : Int) (userId : String) (idParam : Option Int) (body : Option TaskPatch)
  | deleteTaskOp (userId : String) (idParam : Option Int)
  | listPomodoroOp (userId : String)
  | createPomodoroOp (now : Int) (userId : String) (body : Option PomodoroCreateData)
  | listRecommendationsOp (userId : String)
  | generateRecommendationsOp (now : Int) (userId : String)
      (apiKeyConfigured : Bool) (providerResult : Option (Option String))
  | dismissRecommendationOp (userId : String) (idParam : Option Int)
  | listFilesOp (userId : String)
  | uploadFileOp (now : Int) (userId : String) (file : Option UploadedFile)
      (taskIdField : Option (Option Int))
  | downloadFileOp (userId : String) (idParam : Option Int)
  | deleteFileOp (userId : String) (idParam : Option Int)
  | listNotificationsOp (userId : String)
  | markNotificationReadOp (userId : String) (idParam : Option Int)
  | markAllNotificationsReadOp (userId : String)
  | adminStatsOp (userId : String)
  | adminUsersOp (userId : String)
  | adminUpdateRoleOp (userId : String) (targetUserId : String) (body : Option String)

/-- The state effect of one request. -/
def applyOp (db : DB) : Op → DB
  | Op.getProfileOp uid => (getProfileHandler db uid).db
  | Op.listTasksOp _ => db
  | Op.createTaskOp now uid payload => (postTasksHandler db now uid payload).db
  | Op.updateTaskOp now uid idParam body => (patchTaskHandler db now uid idParam body).db
  | Op.deleteTaskOp uid idParam => (deleteTaskHandler db uid idParam).db
  | Op.listPomodoroOp _ => db
  | Op.createPomodoroOp now uid body => (postPomodoroHandler db now uid body).db
  | Op.listRecommendationsOp _ => db
  | Op.generateRecommendationsOp now uid key pr =>
      (generateRecommendationsHandler db now uid key pr).db
  | Op.dismissRecommendationOp uid idParam =>
      (dismissRecommendationHandler db uid idParam).db
  | Op.listFilesOp _ => db
  | Op.uploadFileOp now uid file taskIdField =>
      (uploadFileHandler db now uid file taskIdField).db
  | Op.downloadFileOp uid idParam => (downloadFileHandler db uid idParam).db
  | Op.deleteFileOp uid idParam => (deleteFileHandler db uid idParam).db
  | Op.listNotificationsOp _ => db
  | Op.markNotificationReadOp uid idParam =>
      (markNotificationReadHandler db uid idParam).db
  | Op.markAllNotificationsReadOp uid => (markAllNotificationsReadHandler db uid).db
  | Op.adminStatsOp _ => db
  | Op.adminUsersOp _ => db
  | Op.adminUpdateRoleOp uid target body =>
      (adminUpdateRoleHandler db uid target body).db

/-- The state after a sequence of requests. -/
def applyOps (db : DB) : List Op → DB
  | [] => db
  | op :: rest => applyOps (applyOp db op) rest

/-- The content fields of a stored recommendation row (everything except
the generated id and timestamp), for comparing a persisted row against the
coercion of its candidate. -/
def contentOf (r : StudyRecommendation) : InsertRecommendation :=
  { userId := r.userId, title := r.title, description := r.description,
    subject := r.subject, type := r.type, priority := r.priority,
    dismissed := r.dismissed }

/-- Generated-id freshness: every stored recommendation id is below the
serial counter. Database serial columns guarantee this; it is the hypothesis
under which newly generated rows cannot collide with existing ids. -/
def FreshRecIds (db : DB) : Prop :=
  ∀ r ∈ db.studyRecommendations, r.id < db.nextRecId

/-- The recommendation with the given id exists and is dismissed. -/
def dismissedAt (db : DB) (id : Int) : Prop :=
  (∃ r ∈ db.studyRecommendations, r.id = id) ∧
  ∀ r ∈ db.studyRecommendations, r.id = id → r.dismissed = true

/-- The notification with the given id exists and is read. -/
def readAt (db : DB) (id : Int) : Prop :=
  (∃ n ∈ db.notifications, n.id = id) ∧
  ∀ n ∈ db.notifications, n.id = id → n.read = true

/-! ## Sample states used by witnesses -/

/-- A task owned by user alice. -/
def sampleTask : Task :=
  { id := 1, userId := "alice", title := "Essay", description := none,
    subject := none, priority := "high", status := "pending", dueDate := none,
    estimatedMinutes := none, completedAt := none, createdAt := 0 }

/-- A file owned by user alice. -/
def sampleFile : FileUpload :=
  { id := 1, userId := "alice", filename := "123-x.pdf", originalName := "x.pdf",
    mimeType := "application/pdf", size := 10, taskId := none, createdAt := 0 }

/-- A notification for user alice. -/
def sampleNotif : Notification :=
  { id := 1, userId := "alice", title := "Reminder", message := "due soon",
    type := "info", read := false, createdAt := 0 }

/-- A recommendation for user alice. -/
def sampleRec : StudyRecommendation :=
  { id := 1, userId := "alice", title := "Tip", description := "Review notes",
    subject := none, type := "study_tip", priority := "medium",
    dismissed := false, createdAt := 0 }

/-- One row of each owned kind, all owned by alice. -/
def sampleDB : DB :=
  { tasks := [sampleTask], pomodoroSessions := [], studyRecommendations := [sampleRec],
    fileUploads := [sampleFile], notifications := [sampleNotif], userProfiles := [],
    uploadsDisk := ["123-x.pdf"], nextTaskId := 2, nextSessionId := 1,
    nextRecId := 2, nextFileId := 2, nextNotifId := 2, nextProfileId := 1 }

/-- A recommendation for alice that is already dismissed. -/
def sampleRecDismissed : StudyRecommendation :=
  { sampleRec with dismissed := true }

/-- A notification for alice that is already read. -/
def sampleNotifRead : Notification :=
  { sampleNotif with read := true }

/-- A state in which alice's recommendation 1 is dismissed and her
notification 1 is read. -/
def sampleDBFlagged : DB :=
  { sampleDB with studyRecommendations := [sampleRecDismissed],
                  notifications := [sampleNotifRead] }

/-! ## Claims -/

/-- C6: a POST /api/recommendations/generate request made while the AI
credential is unconfigured responds 503 and leaves the state unchanged, so
zero recommendation rows are created. -/
theorem generate_unconfigured_responds_503_writes_nothing
    (db : DB) (now : Int) (userId : String)
    (providerResult : Option (Option String)) :
    (generateRecommendationsHandler db now userId false providerResult).status = 503 ∧
    (generateRecommendationsHandler db now userId false providerResult).db = db := by
  constructor <;> rfl

/-- C7: a valid pomodoro-session creation that reaches persistence (status
201) records `endedAt = now` exactly when the supplied completed flag is
true, and null otherwise; the returned session is the persisted one. -/
theorem pomodoro_endedAt_iff_completed (db : DB) (now : Int) (userId : String)
    (data : PomodoroCreateData)
    (h : (postPomodoroHandler db now userId (some data)).status = 201) :
    ∃ s, (postPomodoroHandler db now userId (some data)).body = some s ∧
      s ∈ (postPomodoroHandler db now userId (some data)).db.pomodoroSessions ∧
      (data.completed = true → s.endedAt = some now) ∧
      (data.completed = false → s.endedAt = none) := by
  by_cases hc : (match data.taskId with
        | some (some t) =>
            if t == 0 then false
            else
              match getTask db t with
              | none => true
              | some task => task.userId != userId
        | _ => false) = true
  · simp only [postPomodoroHandler, hc, if_pos] at h
    exact absurd h (by decide)
  · simp only [postPomodoroHandler, hc, Bool.not_eq_true] at h ⊢
    rw [if_neg (by simp [hc])] at h ⊢
    refine ⟨_, rfl, ?_, ?_, ?_⟩
    · simp [createPomodoroSession]
    · intro hcomp; simp [createPomodoroSession, hcomp]
    · intro hcomp; simp [createPomodoroSession, hcomp]

/-- C7 witness: a concrete completed session records `endedAt = now`. -/
theorem pomodoro_endedAt_iff_completed_witness :
    ∃ s, (postPomodoroHandler DB.empty 3 "u"
        (some { taskId := none, duration := 25, breakDuration := 5, completed := true })).body = some s ∧
      s ∈ (postPomodoroHandler DB.empty 3 "u"
        (some { taskId := none, duration := 25, breakDuration := 5, completed := true })).db.pomodoroSessions ∧
      (true = true → s.endedAt = some 3) ∧
      (true = false → s.endedAt = none) :=
  pomodoro_endedAt_iff_completed DB.empty 3 "u"
    { taskId := none, duration := 25, breakDuration := 5, completed := true } (by rfl)

/-- C8: every valid POST /api/tasks request persists a task whose userId is
the authenticated caller's id, whatever userId value the payload carried
(zod parsing strips it and the handler overrides it). -/
theorem create_task_userId_forced (db : DB) (now : Int) (userId : String)
    (payload : TaskCreatePayload) :
    (postTasksHandler db now userId (some payload)).status = 201 ∧
    ∃ t, (postTasksHandler db now userId (some payload)).body = some t ∧
      t.userId = userId ∧
      t ∈ (postTasksHandler db now userId (some payload)).db.tasks := by
  refine ⟨rfl, _, rfl, rfl, ?_⟩
  simp [postTasksHandler, createTask]

/-- The row returned and persisted by `updateTask` when the id matches an
existing task. -/
theorem getTask_updateTask (db : DB) (now : Int) (id : Int) (data : TaskPatch)
    (t : Task) (h : getTask db id = some t) :
    (updateTask db now id data).1
      = some (applyTaskPatch t data
          (if data.status == some "completed" then some (some now) else none)) ∧
    getTask (updateTask db now id data).2 id
      = some (applyTaskPatch t data
          (if data.status == some "completed" then some (some now) else none)) := by
  unfold getTask at h
  have hid : (t.id == id) = true := by
    have hp := List.find?_some h
    simpa using hp
  have key : ∀ cap : Option (Option Int),
      List.find? (fun x : Task => x.id == id)
        (db.tasks.map (fun x => if x.id == id then applyTaskPatch x data cap else x))
      = some (applyTaskPatch t data cap) := by
    intro cap
    have hcong : ((fun x : Task => x.id == id) ∘ fun x : Task =>
        if x.id == id then applyTaskPatch x data cap else x)
      = fun x : Task => x.id == id := by
      funext x
      by_cases hx : x.id = id
      · simp [hx, applyTaskPatch]
      · simp [hx]
    rw [List.find?_map, hcong, h]
    have hid' : t.id = id := by simpa using hid
    simp [hid']
  simp only [updateTask, getTask]
  exact ⟨key _, key _⟩

/-- C2 counterexample: creating a task via POST /api/tasks with
status=completed persists completedAt = null — the insert schema omits
completedAt and `createTask` never stamps it — refuting the creation half of
the claim. -/
theorem create_completed_task_counterexample :
    ((postTasksHandler DB.empty 5 "u"
        (some { title := "Essay", status := some "completed" })).db.tasks.map
        (fun t => (t.status, t.completedAt))) = [("completed", none)] ∧
    ((postTasksHandler DB.empty 5 "u"
        (some { title := "Essay", status := some "completed" })).body.map
        Task.completedAt) = some none := by
  constructor <;> rfl

/-- C2 amended: updating an existing owned task's status to completed via
PATCH /api/tasks/:id stamps completedAt with the current time in the
returned and persisted row, but creating a task via POST /api/tasks with
status=completed persists a null completedAt. -/
theorem task_completedAt_stamped_on_update_only :
    (∀ (db : DB) (now : Int) (userId : String) (id : Int) (data : TaskPatch)
        (t : Task),
      getTask db id = some t → t.userId = userId →
      data.status = some "completed" →
      ∃ t', (patchTaskHandler db now userId (some id) (some data)).body = some t' ∧
        getTask (patchTaskHandler db now userId (some id) (some data)).db id = some t' ∧
        t'.completedAt = some now) ∧
    (∀ (db : DB) (now : Int) (userId : String) (payload : TaskCreatePayload),
      payload.status = some "completed" →
      ∃ t, (postTasksHandler db now userId (some payload)).body = some t ∧
        t ∈ (postTasksHandler db now userId (some payload)).db.tasks ∧
        t.status = "completed" ∧ t.completedAt = none) := by
  constructor
  · intro db now userId id data t hget hown hstatus
    have hbne : (t.userId != userId) = false := by simp [hown]
    have hs : (data.status == some "completed") = true := by simp [hstatus]
    have hupd := getTask_updateTask db now id data t hget
    rw [hs, if_pos rfl] at hupd
    refine ⟨applyTaskPatch t data (some (some now)), ?_, ?_, ?_⟩
    · simp only [patchTaskHandler, hget, hbne, Bool.false_eq_true, if_neg,
        not_false_eq_true, hupd.1]
    · simp only [patchTaskHandler, hget, hbne, Bool.false_eq_true, if_neg,
        not_false_eq_true, hupd.2]
    · simp [applyTaskPatch]
  · intro db now userId payload hstatus
    refine ⟨_, rfl, ?_, ?_, rfl⟩
    · simp [postTasksHandler, createTask]
    · simp only [postTasksHandler, createTask, jsOrDefault, hstatus]
      decide

/-- C2 witness: alice patches her task 1 to completed at time 9 and the
stored row carries completedAt = 9; a fresh create with status=completed
stores completedAt = null. -/
theorem task_completedAt_stamped_on_update_only_witness :
    (∃ t', (patchTaskHandler sampleDB 9 "alice" (some 1)
        (some { status := some "completed" })).body = some t' ∧
      getTask (patchTaskHandler sampleDB 9 "alice" (some 1)
        (some { status := some "completed" })).db 1 = some t' ∧
      t'.completedAt = some 9) ∧
    (∃ t, (postTasksHandler DB.empty 5 "u"
        (some { title := "Essay", status := some "completed" })).body = some t ∧
      t ∈ (postTasksHandler DB.empty 5 "u"
        (some { title := "Essay", status := some "completed" })).db.tasks ∧
      t.status = "completed" ∧ t.completedAt = none) :=
  ⟨task_completedAt_stamped_on_update_only.1 sampleDB 9 "alice" 1
      { status := some "completed" } sampleTask (by rfl) (by rfl) rfl,
   task_completedAt_stamped_on_update_only.2 DB.empty 5 "u"
      { title := "Essay", status := some "completed" } rfl⟩

/-- C9: a PATCH /api/tasks/:id on an owned task whose patch does not set
status to completed leaves completedAt exactly as it was (in particular a
patch moving status away from completed does not clear it), and every field
absent from the patch keeps its prior value. -/
theorem patch_frame_fields_preserved (db : DB) (now : Int) (userId : String)
    (id : Int) (data : TaskPatch) (t : Task)
    (hget : getTask db id = some t) (hown : t.userId = userId)
    (hstatus : data.status ≠ some "completed") :
    ∃ t', (patchTaskHandler db now userId (some id) (some data)).body = some t' ∧
      getTask (patchTaskHandler db now userId (some id) (some data)).db id = some t' ∧
      t'.completedAt = t.completedAt ∧
      (data.title = none → t'.title = t.title) ∧
      (data.description = none → t'.description = t.description) ∧
      (data.subject = none → t'.subject = t.subject) ∧
      (data.priority = none → t'.priority = t.priority) ∧
      (data.status = none → t'.status = t.status) ∧
      (data.dueDate = none → t'.dueDate = t.dueDate) ∧
      (data.estimatedMinutes = none → t'.estimatedMinutes = t.estimatedMinutes) := by
  have hbne : (t.userId != userId) = false := by simp [hown]
  have hs : (data.status == some "completed") = false := by
    simp [hstatus]
  have hupd := getTask_updateTask db now id data t hget
  rw [hs] at hupd
  simp only [Bool.false_eq_true, if_neg, not_false_eq_true] at hupd
  refine ⟨applyTaskPatch t data none, ?_, ?_, ?_, ?_, ?_, ?_, ?_, ?_, ?_, ?_⟩
  · simp only [patchTaskHandler, hget, hbne, Bool.false_eq_true, if_neg,
      not_false_eq_true, hupd.1]
  · simp only [patchTaskHandler, hget, hbne, Bool.false_eq_true, if_neg,
      not_false_eq_true, hupd.2]
  · simp [applyTaskPatch]
  all_goals (intro hnone; simp [applyTaskPatch, hnone])

/-- C9 witness: alice patches only the priority of her completed-free task;
status, completedAt and the other untouched fields keep their prior
values. -/
theorem patch_frame_fields_preserved_witness :
    ∃ t', (patchTaskHandler sampleDB 9 "alice" (some 1)
        (some { priority := some "low" })).body = some t' ∧
      getTask (patchTaskHandler sampleDB 9 "alice" (some 1)
        (some { priority := some "low" })).db 1 = some t' ∧
      t'.completedAt = sampleTask.completedAt ∧
      ((none : Option String) = none → t'.title = sampleTask.title) ∧
      ((none : Option (Option String)) = none → t'.description = sampleTask.description) ∧
      ((none : Option (Option String)) = none → t'.subject = sampleTask.subject) ∧
      ((some "low" : Option String) = none → t'.priority = sampleTask.priority) ∧
      ((none : Option String) = none → t'.status = sampleTask.status) ∧
      ((none : Option (Option Int)) = none → t'.dueDate = sampleTask.dueDate) ∧
      ((none : Option (Option Int)) = none → t'.estimatedMinutes = sampleTask.estimatedMinutes) := by
  have h := patch_frame_fields_preserved sampleDB 9 "alice" 1
      { priority := some "low" } sampleTask (by rfl) (by rfl) (by decide)
  exact h

/-- C10: a POST /api/pomodoro request with `taskId = 0` (falsy but present)
skips the task existence-and-ownership check entirely — whatever the state
holds for task 0 — and persists a session referencing taskId 0 with status
201 instead of responding Forbidden. -/
theorem pomodoro_taskId_zero_skips_check (db : DB) (now : Int) (userId : String)
    (duration breakDuration : Int) (completed : Bool) :
    (postPomodoroHandler db now userId
      (some { taskId := some (some 0), duration := duration,
              breakDuration := breakDuration, completed := completed })).status = 201 ∧
    ∃ s, (postPomodoroHandler db now userId
        (some { taskId := some (some 0), duration := duration,
                breakDuration := breakDuration, completed := completed })).body = some s ∧
      s.taskId = some 0 ∧
      s ∈ (postPomodoroHandler db now userId
        (some { taskId := some (some 0), duration := duration,
                breakDuration := breakDuration, completed := completed })).db.pomodoroSessions := by
  refine ⟨rfl, _, rfl, rfl, ?_⟩
  simp [postPomodoroHandler, createPomodoroSession]

/-- C1 counterexample: a pomodoro-session creation referencing an absent
task responds 403 ("Task not found or access denied"), not Not Found as the
claim states for an absent resource. -/
theorem pomodoro_absent_task_is_403_counterexample :
    getTask DB.empty 1 = none ∧
    (postPomodoroHandler DB.empty 3 "bob" (some
      { taskId := some (some 1), duration := 25, breakDuration := 5,
        completed := false })).status = 403 ∧
    (postPomodoroHandler DB.empty 3 "bob" (some
      { taskId := some (some 1), duration := 25, breakDuration := 5,
        completed := false })).status ≠ 404 :=
  ⟨rfl, rfl, by decide⟩

/-- C1 amended: every resource-scoped request on an existing resource owned
by a different user responds 403 or 404 and leaves the state unchanged; an
absent resource yields 404 on the direct task, file, notification and
recommendation endpoints, while the pomodoro-session task reference responds
403 whether the referenced task is absent or foreign-owned. -/
theorem ownership_enforced :
    (∀ (db : DB) (now : Int) (uid : String) (id : Int) (body : Option TaskPatch)
        (t : Task), getTask db id = some t → t.userId ≠ uid →
      (patchTaskHandler db now uid (some id) body).status = 403 ∧
      (patchTaskHandler db now uid (some id) body).db = db) ∧
    (∀ (db : DB) (uid : String) (id : Int) (t : Task),
        getTask db id = some t → t.userId ≠ uid →
      (deleteTaskHandler db uid (some id)).status = 403 ∧
      (deleteTaskHandler db uid (some id)).db = db) ∧
    (∀ (db : DB) (uid : String) (id : Int) (f : FileUpload),
        getFile db id = some f → f.userId ≠ uid →
      (downloadFileHandler db uid (some id)).status = 403 ∧
      (downloadFileHandler db uid (some id)).db = db) ∧
    (∀ (db : DB) (uid : String) (id : Int) (f : FileUpload),
        getFile db id = some f → f.userId ≠ uid →
      (deleteFileHandler db uid (some id)).status = 403 ∧
      (deleteFileHandler db uid (some id)).db = db) ∧
    (∀ (db : DB) (uid : String) (id : Int),
        (∃ n ∈ db.notifications, n.id = id) →
        (∀ n ∈ db.notifications, n.id = id → n.userId ≠ uid) →
      (markNotificationReadHandler db uid (some id)).status = 404 ∧
      (markNotificationReadHandler db uid (some id)).db = db) ∧
    (∀ (db : DB) (uid : String) (id : Int),
        (∃ r ∈ db.studyRecommendations, r.id = id) →
        (∀ r ∈ db.studyRecommendations, r.id = id → r.userId ≠ uid) →
      (dismissRecommendationHandler db uid (some id)).status = 404 ∧
      (dismissRecommendationHandler db uid (some id)).db = db) ∧
    (∀ (db : DB) (now : Int) (uid : String) (tid dur bd : Int) (c : Bool)
        (t : Task), tid ≠ 0 → getTask db tid = some t → t.userId ≠ uid →
      (postPomodoroHandler db now uid (some
        { taskId := some (some tid), duration := dur, breakDuration := bd,
          completed := c })).status = 403 ∧
      (postPomodoroHandler db now uid (some
        { taskId := some (some tid), duration := dur, breakDuration := bd,
          completed := c })).db = db) ∧
    (∀ (db : DB) (now : Int) (uid : String) (id : Int) (body : Option TaskPatch),
        getTask db id = none →
      (patchTaskHandler db now uid (some id) body).status = 404 ∧
      (patchTaskHandler db now uid (some id) body).db = db) ∧
    (∀ (db : DB) (uid : String) (id : Int), getTask db id = none →
      (deleteTaskHandler db uid (some id)).status = 404 ∧
      (deleteTaskHandler db uid (some id)).db = db) ∧
    (∀ (db : DB) (uid : String) (id : Int), getFile db id = none →
      (downloadFileHandler db uid (some id)).status = 404 ∧
      (downloadFileHandler db uid (some id)).db = db) ∧
    (∀ (db : DB) (uid : String) (id : Int), getFile db id = none →
      (deleteFileHandler db uid (some id)).status = 404 ∧
      (deleteFileHandler db uid (some id)).db = db) ∧
    (∀ (db : DB) (uid : String) (id : Int),
        (∀ n ∈ db.notifications, n.id ≠ id) →
      (markNotificationReadHandler db uid (some id)).status = 404 ∧
      (markNotificationReadHandler db uid (some id)).db = db) ∧
    (∀ (db : DB) (uid : String) (id : Int),
        (∀ r ∈ db.studyRecommendations, r.id ≠ id) →
      (dismissRecommendationHandler db uid (some id)).status = 404 ∧
      (dismissRecommendationHandler db uid (some id)).db = db) ∧
    (∀ (db : DB) (now : Int) (uid : String) (tid dur bd : Int) (c : Bool),
        tid ≠ 0 → getTask db tid = none →
      (postPomodoroHandler db now uid (some
        { taskId := some (some tid), duration := dur, breakDuration := bd,
          completed := c })).status = 403 ∧
      (postPomodoroHandler db now uid (some
        { taskId := some (some tid), duration := dur, breakDuration := bd,
          completed := c })).db = db) := by
  refine ⟨?_, ?_, ?_, ?_, ?_, ?_, ?_, ?_, ?_, ?_, ?_, ?_, ?_, ?_⟩
  · intro db now uid id body t hget hne
    have hb : (t.userId != uid) = true := bne_iff_ne.mpr hne
    constructor <;> simp [patchTaskHandler, hget, hb]
  · intro db uid id t hget hne
    have hb : (t.userId != uid) = true := bne_iff_ne.mpr hne
    constructor <;> simp [deleteTaskHandler, hget, hb]
  · intro db uid id f hget hne
    have hb : (f.userId != uid) = true := bne_iff_ne.mpr hne
    constructor <;> simp [downloadFileHandler, hget, hb]
  · intro db uid id f hget hne
    have hb : (f.userId != uid) = true := bne_iff_ne.mpr hne
    constructor <;> simp [deleteFileHandler, hget, hb]
  · intro db uid id hex hall
    have hfind : (getNotifications db uid).find? (fun n => n.id == id) = none := by
      rw [List.find?_eq_none]
      intro n hn hbeq
      have hmem := List.mem_filter.mp hn
      have hid : n.id = id := by simpa using hbeq
      exact absurd (by simpa using hmem.2) (hall n hmem.1 hid)
    constructor <;> simp [markNotificationReadHandler, hfind]
  · intro db uid id hex hall
    have hfind : (getRecommendations db uid).find? (fun r => r.id == id) = none := by
      rw [List.find?_eq_none]
      intro r hr hbeq
      have hmem := List.mem_filter.mp hr
      have hid : r.id = id := by simpa using hbeq
      exact absurd (by simpa using hmem.2) (hall r hmem.1 hid)
    constructor <;> simp [dismissRecommendationHandler, hfind]
  · intro db now uid tid dur bd c t hne0 hget hne
    have ht : (tid == 0) = false := by simp [hne0]
    have hb : (t.userId != uid) = true := bne_iff_ne.mpr hne
    constructor <;> simp [postPomodoroHandler, ht, hget, hb]
  · intro db now uid id body hget
    constructor <;> simp [patchTaskHandler, hget]
  · intro db uid id hget
    constructor <;> simp [deleteTaskHandler, hget]
  · intro db uid id hget
    constructor <;> simp [downloadFileHandler, hget]
  · intro db uid id hget
    constructor <;> simp [deleteFileHandler, hget]
  · intro db uid id hall
    have hfind : (getNotifications db uid).find? (fun n => n.id == id) = none := by
      rw [List.find?_eq_none]
      intro n hn hbeq
      have hmem := List.mem_filter.mp hn
      exact absurd (by simpa using hbeq) (hall n hmem.1)
    constructor <;> simp [markNotificationReadHandler, hfind]
  · intro db uid id hall
    have hfind : (getRecommendations db uid).find? (fun r => r.id == id) = none := by
      rw [List.find?_eq_none]
      intro r hr hbeq
      have hmem := List.mem_filter.mp hr
      exact absurd (by simpa using hbeq) (hall r hmem.1)
    constructor <;> simp [dismissRecommendationHandler, hfind]
  · intro db now uid tid dur bd c hne0 hget
    have ht : (tid == 0) = false := by simp [hne0]
    constructor <;> simp [postPomodoroHandler, ht, hget]

/-- C1 witness: user bob, who owns nothing in the sample state, is denied
with the stated statuses on alice's task, file, notification and
recommendation and on an absent id, with the state unchanged each time. -/
theorem ownership_enforced_witness :
    ((patchTaskHandler sampleDB 9 "bob" (some 1) none).status = 403 ∧
      (patchTaskHandler sampleDB 9 "bob" (some 1) none).db = sampleDB) ∧
    ((deleteTaskHandler sampleDB "bob" (some 1)).status = 403 ∧
      (deleteTaskHandler sampleDB "bob" (some 1)).db = sampleDB) ∧
    ((downloadFileHandler sampleDB "bob" (some 1)).status = 403 ∧
      (downloadFileHandler sampleDB "bob" (some 1)).db = sampleDB) ∧
    ((deleteFileHandler sampleDB "bob" (some 1)).status = 403 ∧
      (deleteFileHandler sampleDB "bob" (some 1)).db = sampleDB) ∧
    ((markNotificationReadHandler sampleDB "bob" (some 1)).status = 404 ∧
      (markNotificationReadHandler sampleDB "bob" (some 1)).db = sampleDB) ∧
    ((dismissRecommendationHandler sampleDB "bob" (some 1)).status = 404 ∧
      (dismissRecommendationHandler sampleDB "bob" (some 1)).db = sampleDB) ∧
    ((postPomodoroHandler sampleDB 9 "bob" (some
        { taskId := some (some 1), duration := 25, breakDuration := 5,
          completed := false })).status = 403 ∧
      (postPomodoroHandler sampleDB 9 "bob" (some
        { taskId := some (some 1), duration := 25, breakDuration := 5,
          completed := false })).db = sampleDB) ∧
    ((patchTaskHandler sampleDB 9 "bob" (some 99) none).status = 404 ∧
      (patchTaskHandler sampleDB 9 "bob" (some 99) none).db = sampleDB) ∧
    ((deleteTaskHandler sampleDB "bob" (some 99)).status = 404 ∧
      (deleteTaskHandler sampleDB "bob" (some 99)).db = sampleDB) ∧
    ((downloadFileHandler sampleDB "bob" (some 99)).status = 404 ∧
      (downloadFileHandler sampleDB "bob" (some 99)).db = sampleDB) ∧
    ((deleteFileHandler sampleDB "bob" (some 99)).status = 404 ∧
      (deleteFileHandler sampleDB "bob" (some 99)).db = sampleDB) ∧
    ((markNotificationReadHandler sampleDB "bob" (some 99)).status = 404 ∧
      (markNotificationReadHandler sampleDB "bob" (some 99)).db = sampleDB) ∧
    ((dismissRecommendationHandler sampleDB "bob" (some 99)).status = 404 ∧
      (dismissRecommendationHandler sampleDB "bob" (some 99)).db = sampleDB) ∧
    ((postPomodoroHandler sampleDB 9 "bob" (some
        { taskId := some (some 99), duration := 25, breakDuration := 5,
          completed := false })).status = 403 ∧
      (postPomodoroHandler sampleDB 9 "bob" (some
        { taskId := some (some 99), duration := 25, breakDuration := 5,
          completed := false })).db = sampleDB) :=
  ⟨ownership_enforced.1 sampleDB 9 "bob" 1 none sampleTask rfl (by decide),
   ownership_enforced.2.1 sampleDB "bob" 1 sampleTask rfl (by decide),
   ownership_enforced.2.2.1 sampleDB "bob" 1 sampleFile rfl (by decide),
   ownership_enforced.2.2.2.1 sampleDB "bob" 1 sampleFile rfl (by decide),
   ownership_enforced.2.2.2.2.1 sampleDB "bob" 1
     ⟨sampleNotif, by decide, rfl⟩ (by decide),
   ownership_enforced.2.2.2.2.2.1 sampleDB "bob" 1
     ⟨sampleRec, by decide, rfl⟩ (by decide),
   ownership_enforced.2.2.2.2.2.2.1 sampleDB 9 "bob" 1 25 5 false sampleTask
     (by decide) rfl (by decide),
   ownership_enforced.2.2.2.2.2.2.2.1 sampleDB 9 "bob" 99 none rfl,
   ownership_enforced.2.2.2.2.2.2.2.2.1 sampleDB "bob" 99 rfl,
   ownership_enforced.2.2.2.2.2.2.2.2.2.1 sampleDB "bob" 99 rfl,
   ownership_enforced.2.2.2.2.2.2.2.2.2.2.1 sampleDB "bob" 99 rfl,
   ownership_enforced.2.2.2.2.2.2.2.2.2.2.2.1 sampleDB "bob" 99 (by decide),
   ownership_enforced.2.2.2.2.2.2.2.2.2.2.2.2.1 sampleDB "bob" 99 (by decide),
   ownership_enforced.2.2.2.2.2.2.2.2.2.2.2.2.2 sampleDB 9 "bob" 99 25 5 false
     (by decide) rfl⟩

/-- C3 counterexample: on the model response text where the direct parse
fails and the extracted bracket substring is itself unparsable, the request
fails with 500 — the fallback's own `JSON.parse` is unguarded — instead of
succeeding with an empty recommendation set. -/
theorem parse_fallback_counterexample :
    jsonParse "x[\x7d]" = none ∧
    bracketMatch "x[\x7d]" = some "[\x7d]" ∧
    jsonParse "[\x7d]" = none ∧
    (generateRecommendationsHandler DB.empty 7 "u" true
      (some (some "x[\x7d]"))).status = 500 ∧
    (generateRecommendationsHandler DB.empty 7 "u" true
      (some (some "x[\x7d]"))).db = DB.empty :=
  ⟨rfl, rfl, rfl, rfl, rfl⟩

/-- Once the credential check and the provider call have passed, the
generate handler is exactly the post-parse tail applied to the two-stage
parse of the (non-empty) content. -/
theorem generate_eq_persistParsed (db : DB) (now : Int) (userId : String)
    (content : String) (hne : content.isEmpty = false) :
    generateRecommendationsHandler db now userId true (some (some content))
      = persistParsed db now userId (parseModelContent content) := by
  simp [generateRecommendationsHandler, hne]

/-- C3 amended: when the direct JSON parse of the model response fails, the
first bracket-delimited substring is extracted and parsed; with no such
substring the request succeeds with an empty recommendation set and no
writes; an extracted substring that parses is processed exactly as a
direct-parse result would be; but an extracted substring that is itself
unparsable makes the request fail with 500 (with no rows created) rather
than succeed. -/
theorem parse_fallback_amended (db : DB) (now : Int) (userId : String)
    (content : String) (hne : content.isEmpty = false)
    (hdirect : jsonParse content = none) :
    (bracketMatch content = none →
      (generateRecommendationsHandler db now userId true (some (some content))).status = 200 ∧
      (generateRecommendationsHandler db now userId true (some (some content))).body = some [] ∧
      (generateRecommendationsHandler db now userId true (some (some content))).db = db) ∧
    (∀ m, bracketMatch content = some m → jsonParse m = none →
      (generateRecommendationsHandler db now userId true (some (some content))).status = 500 ∧
      (generateRecommendationsHandler db now userId true (some (some content))).db = db) ∧
    (∀ m v, bracketMatch content = some m → jsonParse m = some v →
      generateRecommendationsHandler db now userId true (some (some content))
        = persistParsed db now userId (Except.ok v)) := by
  refine ⟨?_, ?_, ?_⟩
  · intro hbm
    have hp : parseModelContent content = Except.ok (Json.arr []) := by
      unfold parseModelContent
      rw [hdirect, hbm]
    rw [generate_eq_persistParsed db now userId content hne, hp]
    exact ⟨rfl, rfl, rfl⟩
  · intro m hbm hm
    have hp : parseModelContent content = Except.error () := by
      unfold parseModelContent
      rw [hdirect, hbm]
      simp [hm]
    rw [generate_eq_persistParsed db now userId content hne, hp]
    exact ⟨rfl, rfl⟩
  · intro m v hbm hm
    have hp : parseModelContent content = Except.ok v := by
      unfold parseModelContent
      rw [hdirect, hbm]
      simp [hm]
    rw [generate_eq_persistParsed db now userId content hne, hp]

/-- C3 amended witness: three concrete model responses exercise the three
fallback outcomes — no bracket substring (success, no writes), unparsable
extracted substring (500), and a parsable extracted array (processed as the
candidate list). -/
theorem parse_fallback_amended_witness :
    ((generateRecommendationsHandler DB.empty 7 "u" true
        (some (some "hello"))).status = 200 ∧
      (generateRecommendationsHandler DB.empty 7 "u" true
        (some (some "hello"))).body = some [] ∧
      (generateRecommendationsHandler DB.empty 7 "u" true
        (some (some "hello"))).db = DB.empty) ∧
    ((generateRecommendationsHandler DB.empty 7 "u" true
        (some (some "a[\x7d]b"))).status = 500 ∧
      (generateRecommendationsHandler DB.empty 7 "u" true
        (some (some "a[\x7d]b"))).db = DB.empty) ∧
    (generateRecommendationsHandler DB.empty 7 "u" true (some (some "x[1,2]"))
      = persistParsed DB.empty 7 "u"
          (Except.ok (Json.arr [Json.num 1, Json.num 2]))) :=
  ⟨(parse_fallback_amended DB.empty 7 "u" "hello" rfl rfl).1 rfl,
   (parse_fallback_amended DB.empty 7 "u" "a[\x7d]b" rfl rfl).2.1 "[\x7d]" rfl rfl,
   (parse_fallback_amended DB.empty 7 "u" "x[1,2]" rfl rfl).2.2 "[1,2]"
     (Json.arr [Json.num 1, Json.num 2]) rfl rfl⟩

/-- C4 counterexample: a candidate carrying the invalid but truthy priority
value "urgent" is persisted as-is — present invalid fields are not replaced
with safe defaults. -/
theorem invalid_priority_persisted_counterexample :
    (generateRecommendationsHandler DB.empty 7 "u" true (some (some
      "[\x7b\"title\":\"T\",\"description\":\"D\",\"priority\":\"urgent\",\"type\":\"focus\"\x7d]"))).status = 200 ∧
    ((generateRecommendationsHandler DB.empty 7 "u" true (some (some
      "[\x7b\"title\":\"T\",\"description\":\"D\",\"priority\":\"urgent\",\"type\":\"focus\"\x7d]"))).db.studyRecommendations.map
      StudyRecommendation.priority) = ["urgent"] ∧
    "urgent" ∉ (["low", "medium", "high"] : List String) :=
  ⟨rfl, rfl, by decide⟩

/-- A non-null candidate coerces without throwing, to its read-off fields. -/
theorem coerceRec_ok (userId : String) (cand : Json) (h : cand ≠ Json.null) :
    coerceRec userId cand = Except.ok (coerceFields userId cand) := by
  cases cand with
  | null => exact absurd rfl h
  | bool b => rfl
  | num q => rfl
  | str s => rfl
  | arr l => rfl
  | obj fields => rfl

/-- The coercion always yields dismissed=false, the caller's userId, and a
title and description within the truncation bounds. -/
theorem coerceFields_bounds (userId : String) (cand : Json) :
    (coerceFields userId cand).dismissed = false ∧
    (coerceFields userId cand).userId = userId ∧
    (coerceFields userId cand).title.length ≤ 60 ∧
    (coerceFields userId cand).description.length ≤ 200 := by
  refine ⟨rfl, rfl, ?_, ?_⟩
  · show (substringTo _ 60).length ≤ 60
    unfold substringTo
    calc (String.mk (List.take 60 _)).length = (List.take 60 _).length := rfl
      _ ≤ 60 := by rw [List.length_take]; exact min_le_left _ _
  · show (substringTo _ 200).length ≤ 200
    unfold substringTo
    calc (String.mk (List.take 200 _)).length = (List.take 200 _).length := rfl
      _ ≤ 200 := by rw [List.length_take]; exact min_le_left _ _

/-- What `insertRecs` persists on a null-free candidate list: the loop
completes, the new rows are appended in order, one per candidate, and each
row's content is exactly the defensive coercion of its candidate. -/
theorem insertRecs_spec (now : Int) (userId : String) :
    ∀ (l : List Json) (db : DB), Json.null ∉ l →
      ∃ created,
        (insertRecs now userId db l).1 = Except.ok created ∧
        (insertRecs now userId db l).2.studyRecommendations
          = db.studyRecommendations ++ created ∧
        created.length = l.length ∧
        (∀ r ∈ created, ∃ cand ∈ l, contentOf r = coerceFields userId cand) := by
  intro l
  induction l with
  | nil =>
      intro db _
      refine ⟨[], rfl, by simp [insertRecs], rfl, ?_⟩
      intro r hr
      exact absurd hr (List.not_mem_nil r)
  | cons c rest ih =>
      intro db hnn
      have hc : c ≠ Json.null := by
        intro h
        exact hnn (by rw [← h]; exact List.mem_cons_self c rest)
      have hrest : Json.null ∉ rest := fun hm => hnn (List.mem_cons_of_mem c hm)
      have hco := coerceRec_ok userId c hc
      obtain ⟨created2, i1, i2, i3, i4⟩ :=
        ih (createRecommendation db now (coerceFields userId c)).2 hrest
      have hstep : insertRecs now userId db (c :: rest)
          = (match insertRecs now userId
                (createRecommendation db now (coerceFields userId c)).2 rest with
             | (Except.ok others, db2) =>
                 (Except.ok ((createRecommendation db now (coerceFields userId c)).1 :: others), db2)
             | (Except.error e, db2) => (Except.error e, db2)) := by
        simp only [insertRecs, hco]
      rcases hIR : insertRecs now userId
          (createRecommendation db now (coerceFields userId c)).2 rest with ⟨res, db2⟩
      have hres : res = Except.ok created2 := by rw [hIR] at i1; exact i1
      rw [hIR, hres] at hstep
      have i2h : db2.studyRecommendations
          = (createRecommendation db now (coerceFields userId c)).2.studyRecommendations
            ++ created2 := by
        rw [hIR] at i2; exact i2
      refine ⟨(createRecommendation db now (coerceFields userId c)).1 :: created2,
        ?_, ?_, ?_, ?_⟩
      · rw [hstep]
      · rw [hstep]
        show db2.studyRecommendations = _
        rw [i2h]
        simp [createRecommendation]
      · simp [i3]
      · intro r hr
        rcases List.mem_cons.mp hr with hr0 | hrmem
        · refine ⟨c, List.mem_cons_self c rest, ?_⟩
          rw [hr0]
          rfl
        · obtain ⟨cand, hcand, heq⟩ := i4 r hrmem
          exact ⟨cand, List.mem_cons_of_mem c hcand, heq⟩

/-- What `insertRecs` does when a null candidate follows a null-free prefix:
the loop throws at the null, having persisted exactly one row per prefix
candidate. -/
theorem insertRecs_null_spec (now : Int) (userId : String) :
    ∀ (pre : List Json) (db : DB) (post : List Json), Json.null ∉ pre →
      (insertRecs now userId db (pre ++ Json.null :: post)).1 = Except.error () ∧
      (insertRecs now userId db (pre ++ Json.null :: post)).2.studyRecommendations.length
        = db.studyRecommendations.length + pre.length := by
  intro pre
  induction pre with
  | nil =>
      intro db post _
      constructor
      · rfl
      · show db.studyRecommendations.length = _
        simp
  | cons c pre2 ih =>
      intro db post hnn
      have hc : c ≠ Json.null := by
        intro h
        exact hnn (by rw [← h]; exact List.mem_cons_self c pre2)
      have hpre2 : Json.null ∉ pre2 := fun hm => hnn (List.mem_cons_of_mem c hm)
      have hco := coerceRec_ok userId c hc
      obtain ⟨ih1, ih2⟩ :=
        ih (createRecommendation db now (coerceFields userId c)).2 post hpre2
      have hstep : insertRecs now userId db ((c :: pre2) ++ Json.null :: post)
          = (match insertRecs now userId
                (createRecommendation db now (coerceFields userId c)).2
                (pre2 ++ Json.null :: post) with
             | (Except.ok others, db2) =>
                 (Except.ok ((createRecommendation db now (coerceFields userId c)).1 :: others), db2)
             | (Except.error e, db2) => (Except.error e, db2)) := by
        simp only [List.cons_append, insertRecs, hco]
        rfl
      rcases hIR : insertRecs now userId
          (createRecommendation db now (coerceFields userId c)).2
          (pre2 ++ Json.null :: post) with ⟨res, db2⟩
      have hres : res = Except.error () := by rw [hIR] at ih1; exact ih1
      rw [hIR, hres] at hstep
      have hlen : db2.studyRecommendations.length
          = (createRecommendation db now (coerceFields userId c)).2.studyRecommendations.length
            + pre2.length := by
        rw [hIR] at ih2; exact ih2
      constructor
      · rw [hstep]
      · rw [hstep]
        show db2.studyRecommendations.length = _
        rw [hlen]
        simp [createRecommendation]
        omega

/-- C4 amended: when the parsed model output is an array with no null among
its first four candidates, at most those four are persisted, in order, each
with dismissed=false, title truncated to 60 characters, description
truncated to 200, and each row's content equal to the defensive coercion of
some candidate — fields are replaced with safe defaults only when missing
or falsy, while a present truthy subject, type or priority is persisted
as-is even outside the declared value sets; a null candidate among the
first four instead aborts the loop with a TypeError, failing the request
with 500 after persisting exactly the candidates before it. -/
theorem candidates_coerced_and_capped (db : DB) (now : Int) (userId : String)
    (content : String) (l : List Json) (hne : content.isEmpty = false)
    (hparse : jsonParse content = some (Json.arr l)) :
    (Json.null ∉ l.take 4 →
      (generateRecommendationsHandler db now userId true (some (some content))).status = 200 ∧
      ∃ created,
        (generateRecommendationsHandler db now userId true (some (some content))).body = some created ∧
        (generateRecommendationsHandler db now userId true (some (some content))).db.studyRecommendations
          = db.studyRecommendations ++ created ∧
        created.length = min 4 l.length ∧
        (∀ r ∈ created, ∃ cand ∈ l.take 4, contentOf r = coerceFields userId cand) ∧
        (∀ r ∈ created, r.dismissed = false ∧ r.userId = userId ∧
          r.title.length ≤ 60 ∧ r.description.length ≤ 200)) ∧
    (∀ pre post, l.take 4 = pre ++ Json.null :: post → Json.null ∉ pre →
      (generateRecommendationsHandler db now userId true (some (some content))).status = 500 ∧
      (generateRecommendationsHandler db now userId true (some (some content))).db.studyRecommendations.length
        = db.studyRecommendations.length + pre.length) := by
  have hp : parseModelContent content = Except.ok (Json.arr l) := by
    unfold parseModelContent
    rw [hparse]
  have hgen : generateRecommendationsHandler db now userId true (some (some content))
      = persistParsed db now userId (Except.ok (Json.arr l)) := by
    rw [generate_eq_persistParsed db now userId content hne, hp]
  constructor
  · intro hnn
    obtain ⟨created, s1, s2, s3, s4⟩ := insertRecs_spec now userId (l.take 4) db hnn
    rcases hIR : insertRecs now userId db (l.take 4) with ⟨res, db2⟩
    have hres : res = Except.ok created := by rw [hIR] at s1; exact s1
    have hpp : persistParsed db now userId (Except.ok (Json.arr l))
        = ⟨200, some created, db2⟩ := by
      simp only [persistParsed, hIR, hres]
    have hrecs : db2.studyRecommendations = db.studyRecommendations ++ created := by
      rw [hIR] at s2; exact s2
    rw [hgen, hpp]
    refine ⟨rfl, created, rfl, hrecs, ?_, s4, ?_⟩
    · rw [s3, List.length_take]
    · intro r hr
      obtain ⟨cand, _, heq⟩ := s4 r hr
      obtain ⟨b1, b2, b3, b4⟩ := coerceFields_bounds userId cand
      refine ⟨?_, ?_, ?_, ?_⟩
      · exact (congrArg InsertRecommendation.dismissed heq).trans b1
      · exact (congrArg InsertRecommendation.userId heq).trans b2
      · exact (congrArg (fun d => d.title.length) heq).trans_le b3
      · exact (congrArg (fun d => d.description.length) heq).trans_le b4
  · intro pre post hsplit hnnpre
    obtain ⟨e1, e2⟩ := insertRecs_null_spec now userId pre db post hnnpre
    rw [← hsplit] at e1 e2
    rcases hIR : insertRecs now userId db (l.take 4) with ⟨res, db2⟩
    have hres : res = Except.error () := by rw [hIR] at e1; exact e1
    have hpp : persistParsed db now userId (Except.ok (Json.arr l))
        = ⟨500, none, db2⟩ := by
      simp only [persistParsed, hIR, hres]
    have hlen : db2.studyRecommendations.length
        = db.studyRecommendations.length + pre.length := by
      rw [hIR] at e2; exact e2
    rw [hgen, hpp]
    exact ⟨rfl, hlen⟩

/-- C4 amended witness: six bare-number candidates (every field missing)
yield exactly four persisted, fully defaulted rows; and a null second
candidate aborts the loop with 500 after persisting exactly the one
candidate before it. -/
theorem candidates_coerced_and_capped_witness :
    ((generateRecommendationsHandler DB.empty 7 "u" true
        (some (some "[1,2,3,4,5,6]"))).status = 200 ∧
      ∃ created,
        (generateRecommendationsHandler DB.empty 7 "u" true
          (some (some "[1,2,3,4,5,6]"))).body = some created ∧
        (generateRecommendationsHandler DB.empty 7 "u" true
          (some (some "[1,2,3,4,5,6]"))).db.studyRecommendations
          = DB.empty.studyRecommendations ++ created ∧
        created.length = min 4 [Json.num 1, Json.num 2, Json.num 3, Json.num 4,
            Json.num 5, Json.num 6].length ∧
        (∀ r ∈ created, ∃ cand ∈ [Json.num 1, Json.num 2, Json.num 3, Json.num 4,
            Json.num 5, Json.num 6].take 4, contentOf r = coerceFields "u" cand) ∧
        (∀ r ∈ created, r.dismissed = false ∧ r.userId = "u" ∧
          r.title.length ≤ 60 ∧ r.description.length ≤ 200)) ∧
    ((generateRecommendationsHandler DB.empty 11 "u" true
        (some (some "[7,null,8]"))).status = 500 ∧
      (generateRecommendationsHandler DB.empty 11 "u" true
        (some (some "[7,null,8]"))).db.studyRecommendations.length
        = DB.empty.studyRecommendations.length + [Json.num 7].length) :=
  have hnn : Json.null ∉ ([Json.num 1, Json.num 2, Json.num 3, Json.num 4,
      Json.num 5, Json.num 6].take 4) := by
    intro h
    simp only [List.take, List.mem_cons, List.not_mem_nil, or_false] at h
    rcases h with h | h | h | h <;> exact Json.noConfusion h
  have hnnpre : Json.null ∉ [Json.num 7] := by
    intro h
    simp only [List.mem_cons, List.not_mem_nil, or_false] at h
    exact Json.noConfusion h
  ⟨(candidates_coerced_and_capped DB.empty 7 "u" "[1,2,3,4,5,6]"
      [Json.num 1, Json.num 2, Json.num 3, Json.num 4, Json.num 5, Json.num 6]
      rfl rfl).1 hnn,
   (candidates_coerced_and_capped DB.empty 11 "u" "[7,null,8]"
      [Json.num 7, Json.null, Json.num 8] rfl rfl).2
      [Json.num 7] [Json.num 8] rfl hnnpre⟩

/-! ### Monotonicity of the dismissed and read flags (C5) -/

/-- Invariant transfer between states with the same recommendation table,
notification table and recommendation counter. -/
theorem invariants_transfer (db db' : DB) (rid nid : Int)
    (hrec : db'.studyRecommendations = db.studyRecommendations)
    (hnot : db'.notifications = db.notifications)
    (hctr : db'.nextRecId = db.nextRecId) (hf : FreshRecIds db) :
    FreshRecIds db' ∧ (dismissedAt db rid → dismissedAt db' rid) ∧
    (readAt db nid → readAt db' nid) := by
  unfold FreshRecIds dismissedAt readAt at *
  rw [hrec, hnot, hctr]
  exact ⟨hf, id, id⟩

/-- `readAt` only depends on the notification table. -/
theorem readAt_of_eq (db db' : DB) (nid : Int)
    (h : db'.notifications = db.notifications) (hr : readAt db nid) :
    readAt db' nid := by
  unfold readAt at *
  rw [h]
  exact hr

/-- GET /api/profile leaves recommendations and notifications untouched. -/
theorem getProfileHandler_untouched (db : DB) (uid : String) :
    (getProfileHandler db uid).db.studyRecommendations = db.studyRecommendations ∧
    (getProfileHandler db uid).db.notifications = db.notifications ∧
    (getProfileHandler db uid).db.nextRecId = db.nextRecId := by
  unfold getProfileHandler upsertProfile
  repeat' split
  all_goals exact ⟨rfl, rfl, rfl⟩

/-- POST /api/tasks leaves recommendations and notifications untouched. -/
theorem postTasksHandler_untouched (db : DB) (now : Int) (uid : String)
    (payload : Option TaskCreatePayload) :
    (postTasksHandler db now uid payload).db.studyRecommendations = db.studyRecommendations ∧
    (postTasksHandler db now uid payload).db.notifications = db.notifications ∧
    (postTasksHandler db now uid payload).db.nextRecId = db.nextRecId := by
  unfold postTasksHandler
  repeat' split
  all_goals exact ⟨rfl, rfl, rfl⟩

/-- PATCH /api/tasks/:id leaves recommendations and notifications untouched. -/
theorem patchTaskHandler_untouched (db : DB) (now : Int) (uid : String)
    (idParam : Option Int) (body : Option TaskPatch) :
    (patchTaskHandler db now uid idParam body).db.studyRecommendations = db.studyRecommendations ∧
    (patchTaskHandler db now uid idParam body).db.notifications = db.notifications ∧
    (patchTaskHandler db now uid idParam body).db.nextRecId = db.nextRecId := by
  unfold patchTaskHandler
  repeat' split
  all_goals exact ⟨rfl, rfl, rfl⟩

/-- DELETE /api/tasks/:id leaves recommendations and notifications untouched. -/
theorem deleteTaskHandler_untouched (db : DB) (uid : String)
    (idParam : Option Int) :
    (deleteTaskHandler db uid idParam).db.studyRecommendations = db.studyRecommendations ∧
    (deleteTaskHandler db uid idParam).db.notifications = db.notifications ∧
    (deleteTaskHandler db uid idParam).db.nextRecId = db.nextRecId := by
  unfold deleteTaskHandler
  repeat' split
  all_goals exact ⟨rfl, rfl, rfl⟩

/-- POST /api/pomodoro leaves recommendations and notifications untouched. -/
theorem postPomodoroHandler_untouched (db : DB) (now : Int) (uid : String)
    (body : Option PomodoroCreateData) :
    (postPomodoroHandler db now uid body).db.studyRecommendations = db.studyRecommendations ∧
    (postPomodoroHandler db now uid body).db.notifications = db.notifications ∧
    (postPomodoroHandler db now uid body).db.nextRecId = db.nextRecId := by
  cases body with
  | none => exact ⟨rfl, rfl, rfl⟩
  | some data =>
      simp only [postPomodoroHandler]
      cases hC : (match data.taskId with
        | some (some t) =>
            if t == 0 then false
            else
              match getTask db t with
              | none => true
              | some task => task.userId != uid
        | _ => false) with
      | true => exact ⟨rfl, rfl, rfl⟩
      | false => exact ⟨rfl, rfl, rfl⟩

/-- POST /api/files/upload leaves recommendations and notifications
untouched. -/
theorem uploadFileHandler_untouched (db : DB) (now : Int) (uid : String)
    (file : Option UploadedFile) (taskIdField : Option (Option Int)) :
    (uploadFileHandler db now uid file taskIdField).db.studyRecommendations = db.studyRecommendations ∧
    (uploadFileHandler db now uid file taskIdField).db.notifications = db.notifications ∧
    (uploadFileHandler db now uid file taskIdField).db.nextRecId = db.nextRecId := by
  cases file with
  | none => exact ⟨rfl, rfl, rfl⟩
  | some f =>
      cases taskIdField with
      | none => exact ⟨rfl, rfl, rfl⟩
      | some x =>
          cases x with
          | none => exact ⟨rfl, rfl, rfl⟩
          | some t =>
              simp only [uploadFileHandler]
              cases hG : getTask { db with uploadsDisk := db.uploadsDisk ++ [f.filename] } t with
              | none => exact ⟨rfl, rfl, rfl⟩
              | some task =>
                  by_cases hO : (task.userId != uid) = true <;>
                  refine ⟨?_, ?_, ?_⟩ <;>
                  simp [hO, hG, createFile]

/-- GET /api/files/:id/download leaves the state untouched. -/
theorem downloadFileHandler_untouched (db : DB) (uid : String)
    (idParam : Option Int) :
    (downloadFileHandler db uid idParam).db.studyRecommendations = db.studyRecommendations ∧
    (downloadFileHandler db uid idParam).db.notifications = db.notifications ∧
    (downloadFileHandler db uid idParam).db.nextRecId = db.nextRecId := by
  unfold downloadFileHandler
  repeat' split
  all_goals exact ⟨rfl, rfl, rfl⟩

/-- DELETE /api/files/:id leaves recommendations and notifications
untouched. -/
theorem deleteFileHandler_untouched (db : DB) (uid : String)
    (idParam : Option Int) :
    (deleteFileHandler db uid idParam).db.studyRecommendations = db.studyRecommendations ∧
    (deleteFileHandler db uid idParam).db.notifications = db.notifications ∧
    (deleteFileHandler db uid idParam).db.nextRecId = db.nextRecId := by
  unfold deleteFileHandler
  repeat' split
  all_goals exact ⟨rfl, rfl, rfl⟩

/-- PATCH /api/admin/users/:userId/role leaves recommendations and
notifications untouched. -/
theorem adminUpdateRoleHandler_untouched (db : DB) (adminId target : String)
    (body : Option String) :
    (adminUpdateRoleHandler db adminId target body).db.studyRecommendations = db.studyRecommendations ∧
    (adminUpdateRoleHandler db adminId target body).db.notifications = db.notifications ∧
    (adminUpdateRoleHandler db adminId target body).db.nextRecId = db.nextRecId := by
  simp only [adminUpdateRoleHandler, upsertProfile, updateProfileRole]
  cases hA : (match getProfile db adminId with
    | some p => p.role == "admin"
    | none => false) with
  | false => exact ⟨rfl, rfl, rfl⟩
  | true =>
      cases body with
      | none => exact ⟨rfl, rfl, rfl⟩
      | some role =>
          cases hG : getProfile db target with
          | none => exact ⟨rfl, rfl, rfl⟩
          | some p => exact ⟨rfl, rfl, rfl⟩

/-- Dismissing any recommendation id preserves freshness of ids. -/
theorem freshRecIds_dismissRecommendation (db : DB) (i : Int)
    (hf : FreshRecIds db) : FreshRecIds (dismissRecommendation db i) := by
  intro r' hr'
  obtain ⟨r, hr, hfr⟩ := List.mem_map.mp hr'
  show r'.id < db.nextRecId
  rw [← hfr]
  by_cases hc : (r.id == i) = true
  · simpa [hc] using hf r hr
  · simpa [hc] using hf r hr

/-- Dismissing any recommendation id keeps every already-dismissed
recommendation dismissed. -/
theorem dismissedAt_dismissRecommendation (db : DB) (i rid : Int)
    (h : dismissedAt db rid) : dismissedAt (dismissRecommendation db i) rid := by
  obtain ⟨⟨r0, hr0, hid0⟩, hall⟩ := h
  constructor
  · refine ⟨if (r0.id == i) = true then { r0 with dismissed := true } else r0,
      List.mem_map_of_mem _ hr0, ?_⟩
    split <;> simp [hid0]
  · intro r' hr' hid'
    obtain ⟨r, hr, hfr⟩ := List.mem_map.mp hr'
    by_cases hc : (r.id == i) = true
    · rw [← hfr]
      simp [hc]
    · rw [← hfr] at hid' ⊢
      simp only [hc] at hid' ⊢
      simp only [Bool.false_eq_true, if_neg, not_false_eq_true] at hid' ⊢
      exact hall r hr hid'

/-- Marking one notification read keeps every already-read notification
read. -/
theorem readAt_markNotificationRead (db : DB) (i nid : Int)
    (h : readAt db nid) : readAt (markNotificationRead db i) nid := by
  obtain ⟨⟨n0, hn0, hid0⟩, hall⟩ := h
  constructor
  · refine ⟨if (n0.id == i) = true then { n0 with read := true } else n0,
      List.mem_map_of_mem _ hn0, ?_⟩
    split <;> simp [hid0]
  · intro n' hn' hid'
    obtain ⟨n, hn, hfn⟩ := List.mem_map.mp hn'
    by_cases hc : (n.id == i) = true
    · rw [← hfn]
      simp [hc]
    · rw [← hfn] at hid' ⊢
      simp only [hc] at hid' ⊢
      simp only [Bool.false_eq_true, if_neg, not_false_eq_true] at hid' ⊢
      exact hall n hn hid'

/-- Marking all of a user's notifications read keeps every already-read
notification read. -/
theorem readAt_markAllNotificationsRead (db : DB) (u : String) (nid : Int)
    (h : readAt db nid) : readAt (markAllNotificationsRead db u) nid := by
  obtain ⟨⟨n0, hn0, hid0⟩, hall⟩ := h
  constructor
  · refine ⟨if (n0.userId == u) = true then { n0 with read := true } else n0,
      List.mem_map_of_mem _ hn0, ?_⟩
    split <;> simp [hid0]
  · intro n' hn' hid'
    obtain ⟨n, hn, hfn⟩ := List.mem_map.mp hn'
    by_cases hc : (n.userId == u) = true
    · rw [← hfn]
      simp [hc]
    · rw [← hfn] at hid' ⊢
      simp only [hc] at hid' ⊢
      simp only [Bool.false_eq_true, if_neg, not_false_eq_true] at hid' ⊢
      exact hall n hn hid'

/-- Creating a recommendation preserves id freshness and already-dismissed
flags (the fresh id cannot collide with an existing dismissed row), and
leaves notifications untouched. -/
theorem createRecommendation_invariants (db : DB) (now : Int)
    (d : InsertRecommendation) (rid : Int) (hf : FreshRecIds db) :
    FreshRecIds (createRecommendation db now d).2 ∧
    (dismissedAt db rid → dismissedAt (createRecommendation db now d).2 rid) ∧
    (createRecommendation db now d).2.notifications = db.notifications := by
  refine ⟨?_, ?_, rfl⟩
  · intro r hr
    simp only [createRecommendation] at hr ⊢
    rcases List.mem_append.mp hr with hmem | hnew
    · exact lt_trans (hf r hmem) (lt_add_one _)
    · rw [List.mem_singleton.mp hnew]
      exact lt_add_one _
  · intro h
    obtain ⟨⟨r0, hr0, hid0⟩, hall⟩ := h
    constructor
    · exact ⟨r0, List.mem_append_left _ hr0, hid0⟩
    · intro r hr hid
      simp only [createRecommendation] at hr
      rcases List.mem_append.mp hr with hmem | hnew
      · exact hall r hmem hid
      · exfalso
        have hlt : rid < db.nextRecId := hid0 ▸ hf r0 hr0
        rw [List.mem_singleton.mp hnew] at hid
        simp only at hid
        omega

/-- The generate handler's insertion loop preserves id freshness and
already-dismissed flags and leaves notifications untouched, whether or not
it aborts at a null candidate. -/
theorem insertRecs_invariants (now : Int) (uid : String) (rid : Int) :
    ∀ (l : List Json) (db : DB), FreshRecIds db →
      FreshRecIds (insertRecs now uid db l).2 ∧
      (dismissedAt db rid → dismissedAt (insertRecs now uid db l).2 rid) ∧
      (insertRecs now uid db l).2.notifications = db.notifications := by
  intro l
  induction l with
  | nil => intro db hf; exact ⟨hf, id, rfl⟩
  | cons c rest ih =>
      intro db hf
      cases hco : coerceRec uid c with
      | error e =>
          have hstep : (insertRecs now uid db (c :: rest)).2 = db := by
            simp only [insertRecs, hco]
          rw [hstep]
          exact ⟨hf, id, rfl⟩
      | ok data =>
          obtain ⟨c1, c2, c3⟩ := createRecommendation_invariants db now data rid hf
          obtain ⟨i1, i2, i3⟩ := ih (createRecommendation db now data).2 c1
          have hstep : (insertRecs now uid db (c :: rest)).2
              = (insertRecs now uid (createRecommendation db now data).2 rest).2 := by
            simp only [insertRecs, hco]
            rcases hIR : insertRecs now uid (createRecommendation db now data).2 rest
              with ⟨res, db2⟩
            cases res <;> rfl
          rw [hstep]
          exact ⟨i1, fun hd => i2 (c2 hd), i3.trans c3⟩

/-- The generate handler's post-parse tail preserves id freshness and both
monotone flags. -/
theorem persistParsed_invariants (db : DB) (now : Int) (uid : String)
    (rid nid : Int) (e : Except Unit Json) (hf : FreshRecIds db) :
    FreshRecIds (persistParsed db now uid e).db ∧
    (dismissedAt db rid → dismissedAt (persistParsed db now uid e).db rid) ∧
    (readAt db nid → readAt (persistParsed db now uid e).db nid) := by
  cases e with
  | error u => exact ⟨hf, id, id⟩
  | ok v =>
      cases v with
      | arr l =>
          obtain ⟨i1, i2, i3⟩ := insertRecs_invariants now uid rid (l.take 4) db hf
          rcases hIR : insertRecs now uid db (l.take 4) with ⟨res, db2⟩
          have e1 : FreshRecIds db2 := by rw [hIR] at i1; exact i1
          have e2 : dismissedAt db rid → dismissedAt db2 rid := by
            rw [hIR] at i2; exact i2
          have e3 : db2.notifications = db.notifications := by
            rw [hIR] at i3; exact i3
          have hdb : (persistParsed db now uid (Except.ok (Json.arr l))).db = db2 := by
            cases res <;> simp only [persistParsed, hIR]
          rw [hdb]
          exact ⟨e1, e2, fun hr => readAt_of_eq _ _ _ e3 hr⟩
      | str t =>
          obtain ⟨i1, i2, i3⟩ := insertRecs_invariants now uid rid
            ((t.data.take 4).map (fun c => Json.str (String.mk [c]))) db hf
          rcases hIR : insertRecs now uid db
              ((t.data.take 4).map (fun c => Json.str (String.mk [c]))) with ⟨res, db2⟩
          have e1 : FreshRecIds db2 := by rw [hIR] at i1; exact i1
          have e2 : dismissedAt db rid → dismissedAt db2 rid := by
            rw [hIR] at i2; exact i2
          have e3 : db2.notifications = db.notifications := by
            rw [hIR] at i3; exact i3
          have hdb : (persistParsed db now uid (Except.ok (Json.str t))).db = db2 := by
            cases res <;> simp only [persistParsed, hIR]
          rw [hdb]
          exact ⟨e1, e2, fun hr => readAt_of_eq _ _ _ e3 hr⟩
      | null => exact ⟨hf, id, id⟩
      | bool b => exact ⟨hf, id, id⟩
      | num n => exact ⟨hf, id, id⟩
      | obj fields => exact ⟨hf, id, id⟩

/-- One request preserves id freshness and both monotone flags. -/
theorem applyOp_preserves (db : DB) (op : Op) (rid nid : Int)
    (hf : FreshRecIds db) :
    FreshRecIds (applyOp db op) ∧
    (dismissedAt db rid → dismissedAt (applyOp db op) rid) ∧
    (readAt db nid → readAt (applyOp db op) nid) := by
  cases op with
  | getProfileOp uid =>
      obtain ⟨h1, h2, h3⟩ := getProfileHandler_untouched db uid
      exact invariants_transfer db _ rid nid h1 h2 h3 hf
  | listTasksOp uid => exact ⟨hf, id, id⟩
  | createTaskOp now uid payload =>
      obtain ⟨h1, h2, h3⟩ := postTasksHandler_untouched db now uid payload
      exact invariants_transfer db _ rid nid h1 h2 h3 hf
  | updateTaskOp now uid idParam body =>
      obtain ⟨h1, h2, h3⟩ := patchTaskHandler_untouched db now uid idParam body
      exact invariants_transfer db _ rid nid h1 h2 h3 hf
  | deleteTaskOp uid idParam =>
      obtain ⟨h1, h2, h3⟩ := deleteTaskHandler_untouched db uid idParam
      exact invariants_transfer db _ rid nid h1 h2 h3 hf
  | listPomodoroOp uid => exact ⟨hf, id, id⟩
  | createPomodoroOp now uid body =>
      obtain ⟨h1, h2, h3⟩ := postPomodoroHandler_untouched db now uid body
      exact invariants_transfer db _ rid nid h1 h2 h3 hf
  | listRecommendationsOp uid => exact ⟨hf, id, id⟩
  | generateRecommendationsOp now uid key pr =>
      cases key with
      | false => exact ⟨hf, id, id⟩
      | true =>
          cases pr with
          | none => exact ⟨hf, id, id⟩
          | some contentOpt =>
              exact persistParsed_invariants db now uid rid nid _ hf
  | dismissRecommendationOp uid idParam =>
      simp only [applyOp]
      unfold dismissRecommendationHandler
      repeat' split
      all_goals try exact ⟨hf, id, id⟩
      all_goals
        exact ⟨freshRecIds_dismissRecommendation db _ hf,
               dismissedAt_dismissRecommendation db _ rid,
               readAt_of_eq _ _ _ rfl⟩
  | listFilesOp uid => exact ⟨hf, id, id⟩
  | uploadFileOp now uid file taskIdField =>
      obtain ⟨h1, h2, h3⟩ := uploadFileHandler_untouched db now uid file taskIdField
      exact invariants_transfer db _ rid nid h1 h2 h3 hf
  | downloadFileOp uid idParam =>
      obtain ⟨h1, h2, h3⟩ := downloadFileHandler_untouched db uid idParam
      exact invariants_transfer db _ rid nid h1 h2 h3 hf
  | deleteFileOp uid idParam =>
      obtain ⟨h1, h2, h3⟩ := deleteFileHandler_untouched db uid idParam
      exact invariants_transfer db _ rid nid h1 h2 h3 hf
  | listNotificationsOp uid => exact ⟨hf, id, id⟩
  | markNotificationReadOp uid idParam =>
      simp only [applyOp]
      unfold markNotificationReadHandler
      repeat' split
      all_goals try exact ⟨hf, id, id⟩
      all_goals
        exact ⟨hf, id, readAt_markNotificationRead db _ nid⟩
  | markAllNotificationsReadOp uid =>
      exact ⟨hf, id, readAt_markAllNotificationsRead db uid nid⟩
  | adminStatsOp uid => exact ⟨hf, id, id⟩
  | adminUsersOp uid => exact ⟨hf, id, id⟩
  | adminUpdateRoleOp uid target body =>
      obtain ⟨h1, h2, h3⟩ := adminUpdateRoleHandler_untouched db uid target body
      exact invariants_transfer db _ rid nid h1 h2 h3 hf

/-- Any sequence of requests preserves id freshness and both flags. -/
theorem applyOps_preserves (ops : List Op) :
    ∀ (db : DB) (rid nid : Int), FreshRecIds db →
      FreshRecIds (applyOps db ops) ∧
      (dismissedAt db rid → dismissedAt (applyOps db ops) rid) ∧
      (readAt db nid → readAt (applyOps db ops) nid) := by
  induction ops with
  | nil => intro db rid nid hf; exact ⟨hf, id, id⟩
  | cons op rest ih =>
      intro db rid nid hf
      obtain ⟨h1, h2, h3⟩ := applyOp_preserves db op rid nid hf
      obtain ⟨g1, g2, g3⟩ := ih (applyOp db op) rid nid h1
      exact ⟨g1, fun hd => g2 (h2 hd), fun hr => g3 (h3 hr)⟩

/-- C5: through every exposed endpoint, the dismissed flag of a
recommendation and the read flag of a notification are monotonic — in any
state whose stored recommendation ids are below the serial counter, once a
recommendation is dismissed or a notification is read, it stays so after
every reachable sequence of handler operations. -/
theorem dismissed_read_flags_monotonic (db : DB) (ops : List Op)
    (rid nid : Int) (hf : FreshRecIds db) :
    (dismissedAt db rid → dismissedAt (applyOps db ops) rid) ∧
    (readAt db nid → readAt (applyOps db ops) nid) :=
  ⟨(applyOps_preserves ops db rid nid hf).2.1,
   (applyOps_preserves ops db rid nid hf).2.2⟩

/-- C5 witness: starting from a state with a dismissed recommendation and a
read notification, a concrete request sequence — profile access, a task
patch, a recommendation generation, a dismissal, a mark-all-read and a task
deletion — leaves both flags set. -/
theorem dismissed_read_flags_monotonic_witness :
    dismissedAt (applyOps sampleDBFlagged
      [Op.getProfileOp "alice",
       Op.updateTaskOp 9 "alice" (some 1) (some { status := some "completed" }),
       Op.generateRecommendationsOp 7 "alice" true (some (some "[1,2]")),
       Op.dismissRecommendationOp "alice" (some 2),
       Op.markAllNotificationsReadOp "alice",
       Op.deleteTaskOp "alice" (some 1)]) 1 ∧
    readAt (applyOps sampleDBFlagged
      [Op.getProfileOp "alice",
       Op.updateTaskOp 9 "alice" (some 1) (some { status := some "completed" }),
       Op.generateRecommendationsOp 7 "alice" true (some (some "[1,2]")),
       Op.dismissRecommendationOp "alice" (some 2),
       Op.markAllNotificationsReadOp "alice",
       Op.deleteTaskOp "alice" (some 1)]) 1 := by
  have h := dismissed_read_flags_monotonic sampleDBFlagged
    [Op.getProfileOp "alice",
     Op.updateTaskOp 9 "alice" (some 1) (some { status := some "completed" }),
     Op.generateRecommendationsOp 7 "alice" true (some (some "[1,2]")),
     Op.dismissRecommendationOp "alice" (some 2),
     Op.markAllNotificationsReadOp "alice",
     Op.deleteTaskOp "alice" (some 1)] 1 1 (by unfold FreshRecIds; decide)
  exact ⟨h.1 (by unfold dismissedAt; decide), h.2 (by unfold readAt; decide)⟩

end StudySphere
